import Mathlib

/-!
Verification development for the workflow execution runtime
(`backend/app/runtime`) and the declarative workflow document model
(`backend/app/models/workflow.py`) of the demo_platform repository.

The Python sources are shallowly embedded: dictionaries become ordered
association lists with Python `dict` semantics (insertion order, in-place
overwrite of existing keys), JSON-like dynamic values become the `Value`
inductive, and the asynchronous engine of
`backend/app/runtime/engine.py` becomes a pure state-passing function
parameterised over an `Env` record that supplies the behaviour of the
external world (Jinja rendering, HTTP calls, environment variables,
byte decoding, clock and id generation).
-/

set_option autoImplicit false

universe u

/-- JSON-like dynamic value, the embedding of Python `Any` data handled by the
runtime (contexts, parameters, provider responses).  `bytes` embeds Python
`bytes` objects, which `file_uploader` stores when `as_text` is false. -/
inductive Value where
  | null
  | bool (b : Bool)
  | num (n : Int)
  | str (s : String)
  | bytes (bs : List UInt8)
  | arr (xs : List Value)
  | obj (kvs : List (String × Value))
  deriving Repr

/-- Ordered string-keyed association list: the embedding of a Python `dict`. -/
abbrev PyDict (α : Type u) : Type u := List (String × α)

/-- `d.get(k)`: first (and, for dicts built by `pySet`, only) binding of `k`. -/
def pyGet {α : Type u} : PyDict α → String → Option α
  | [], _ => none
  | (k', v) :: rest, k => if k' = k then some v else pyGet rest k

/-- `d[k] = v`: overwrite the binding of `k` in place, else append it,
preserving Python dict insertion order. -/
def pySet {α : Type u} : PyDict α → String → α → PyDict α
  | [], k, v => [(k, v)]
  | (k', v') :: rest, k, v =>
      if k' = k then (k', v) :: rest else (k', v') :: pySet rest k v

/-- `dict(pairs)` built by repeated assignment: later pairs overwrite earlier
ones, as in Python dict comprehensions. -/
def pyDictOf {α : Type u} (pairs : List (String × α)) : PyDict α :=
  pairs.foldl (fun d kv => pySet d kv.1 kv.2) []

/-- Python `str.strip()` over the ASCII whitespace the runtime encounters. -/
def isPySpace (c : Char) : Bool :=
  c = ' ' ∨ c = '\t' ∨ c = '\n' ∨ c = '\r' ∨ c.toNat = 11 ∨ c.toNat = 12

/-- Python `str.strip()`. -/
def pyStrip (s : String) : String :=
  String.mk ((s.toList.dropWhile isPySpace).reverse.dropWhile isPySpace |>.reverse)

/-- Python list indexing `xs[i]`, including negative-index wrap-around;
`none` models an `IndexError`. -/
def pyIndex {α : Type u} (xs : List α) (i : Int) : Option α :=
  if 0 ≤ i then xs[i.toNat]?
  else
    let j : Int := (xs.length : Int) + i
    if 0 ≤ j then xs[j.toNat]? else none

/-- Character-level split for Python `path.split(".")`. -/
def splitDotChars : List Char → List (List Char)
  | [] => [[]]
  | c :: rest =>
      let r := splitDotChars rest
      if c = '.' then [] :: r
      else
        match r with
        | hd :: tl => (c :: hd) :: tl
        | [] => [[c]]

/-- Python `path.split(".")`. -/
def pySplitDot (s : String) : List String :=
  (splitDotChars s.toList).map String.mk

/-- `utils.truthy`: Python-flavoured truthiness of a rendered value. -/
def truthy : Value → Bool
  | Value.bool b => b
  | Value.num n => if n = 0 then false else true
  | Value.null => false
  | Value.str s =>
      let t := (pyStrip s).toLower
      if t = "" ∨ t = "false" ∨ t = "0" ∨ t = "none" then false else true
  | Value.bytes bs => !bs.isEmpty
  | Value.arr xs => !xs.isEmpty
  | Value.obj kvs => !kvs.isEmpty

mutual
/-- `utils.deep_merge`: recursively merge `updates` into `base` without
mutating either; dict values merge recursively, everything else overwrites. -/
def deep_merge (base : PyDict Value) : PyDict Value → PyDict Value
  | [] => base
  | (k, v) :: rest => deep_merge (deepMergeKey base k v) rest
  termination_by structural l => l

/-- One `key, value` assignment of `deep_merge`: merge recursively when both
the existing and the new value are dicts, otherwise overwrite. -/
def deepMergeKey (base : PyDict Value) (k : String) : Value → PyDict Value
  | Value.obj u =>
      match pyGet base k with
      | some (Value.obj b) => pySet base k (Value.obj (deep_merge b u))
      | some _ => pySet base k (Value.obj u)
      | none => pySet base k (Value.obj u)
  | v => pySet base k v
  termination_by structural v => v
end

/-- The nested-dictionary skeleton built by `utils.build_path_value`. -/
def buildPathNest (v : Value) : List String → PyDict Value
  | [] => []
  | [last] => [(last, v)]
  | p :: rest => [(p, Value.obj (buildPathNest v rest))]

/-- `utils.build_path_value`: create a nested dictionary for a dotted path;
an effectively empty path raises `ValueError`. -/
def build_path_value (path : String) (v : Value) : Except String (PyDict Value) :=
  let parts := (pySplitDot path).filter (fun part => ¬ part = "")
  match parts with
  | [] => Except.error "Path must not be empty"
  | _ => Except.ok (buildPathNest v parts)

/-- The traversal loop of `utils.resolve_path`. -/
def resolvePathGo (fullPath : String) : Value → List String → Except String Value
  | v, [] => Except.ok v
  | Value.obj kvs, part :: rest =>
      match pyGet kvs part with
      | some v' => resolvePathGo fullPath v' rest
      | none => Except.error ("Path '" ++ fullPath ++ "' not found (stopped at '" ++ part ++ "')")
  | _, part :: _ =>
      Except.error ("Path '" ++ fullPath ++ "' not found (stopped at '" ++ part ++ "')")

/-- `utils.resolve_path`: strict dotted-path lookup in a nested dictionary;
any missing or non-dict intermediate raises `KeyError`. -/
def resolve_path (data : PyDict Value) (path : String) : Except String Value :=
  if path = "" then Except.ok (Value.obj data)
  else resolvePathGo path (Value.obj data) (pySplitDot path)

/-- External-world interface of the runtime: everything the engine and its
component handlers obtain from outside the process is a field here, so the
engine itself is a pure function of `Env`. -/
structure Env where
  /-- Render one Jinja template string (`StrictUndefined` environment of
  `utils._jinja_env`); an undefined variable raises. -/
  jinjaRender : String → PyDict Value → Except String String
  /-- One `call_workflow` HTTP POST: endpoint, JSON body, headers; collapses
  `raise_for_status` and `response.json()`, so a network failure, a non-2xx
  status or a non-JSON body are all `error`. -/
  httpPost : String → Value → PyDict String → Except String Value
  /-- `os.getenv`. -/
  getenv : String → Option String
  /-- Decode bytes with a named text encoding (`bytes.decode`). -/
  decodeBytes : String → List UInt8 → Option String
  /-- Wall clock used by `WorkflowSession.touch`. -/
  now : Nat
  /-- `uuid4()` for `create_session`. -/
  newSessionId : String

/-- Does `needle` occur at the start of `hay`? -/
def charsStartWith : List Char → List Char → Bool
  | [], _ => true
  | _ :: _, [] => false
  | n :: ns, h :: hs => n = h && charsStartWith ns hs

/-- Python `needle in hay` over character lists. -/
def charsContain (needle : List Char) : List Char → Bool
  | [] => charsStartWith needle []
  | c :: rest => charsStartWith needle (c :: rest) || charsContain needle rest

/-- Does a string contain Jinja markers?  (`"\x7b\x7b" in value or
"\x7b%" in value` in `utils.render_template`.) -/
def hasJinjaMarker (s : String) : Bool :=
  charsContain "\x7b\x7b".toList s.toList || charsContain "\x7b%".toList s.toList

mutual
/-- `utils.render_template`: recursively render Jinja templates inside an
arbitrary JSON-like structure; strings without markers pass through. -/
def render_template (env : Env) (vars : PyDict Value) : Value → Except String Value
  | Value.str s =>
      if hasJinjaMarker s then
        match env.jinjaRender s vars with
        | Except.ok rendered => Except.ok (Value.str rendered)
        | Except.error e => Except.error e
      else Except.ok (Value.str s)
  | Value.obj kvs =>
      match renderTemplatePairs env vars kvs with
      | Except.ok kvs' => Except.ok (Value.obj kvs')
      | Except.error e => Except.error e
  | Value.arr xs =>
      match renderTemplateList env vars xs with
      | Except.ok xs' => Except.ok (Value.arr xs')
      | Except.error e => Except.error e
  | v => Except.ok v
  termination_by structural v => v

/-- Element-wise rendering of dict entries for `render_template`. -/
def renderTemplatePairs (env : Env) (vars : PyDict Value) :
    List (String × Value) → Except String (List (String × Value))
  | [] => Except.ok []
  | (k, v) :: rest =>
      match render_template env vars v with
      | Except.error e => Except.error e
      | Except.ok v' =>
          match renderTemplatePairs env vars rest with
          | Except.error e => Except.error e
          | Except.ok rest' => Except.ok ((k, v') :: rest')
  termination_by structural l => l

/-- Element-wise rendering of list entries for `render_template`. -/
def renderTemplateList (env : Env) (vars : PyDict Value) :
    List Value → Except String (List Value)
  | [] => Except.ok []
  | v :: rest =>
      match render_template env vars v with
      | Except.error e => Except.error e
      | Except.ok v' =>
          match renderTemplateList env vars rest with
          | Except.error e => Except.error e
          | Except.ok rest' => Except.ok (v' :: rest')
  termination_by structural l => l
end

/-- The whole-string expression pattern of `expressions._EXPRESSION_PATTERN`
(`^\s*\x7b\x7b\s*(?P<expr>[^\x7d]+)\s*\x7d\x7d\s*$`): on a match, return the
captured `expr` group. -/
def matchExpression (s : String) : Option String :=
  match s.toList.dropWhile isPySpace with
  | '\x7b' :: '\x7b' :: rest =>
      let body := rest.takeWhile (fun c => ¬ c = '\x7d')
      let after := rest.dropWhile (fun c => ¬ c = '\x7d')
      if body.isEmpty then none
      else
        match after with
        | '\x7d' :: '\x7d' :: tail =>
            if tail.all isPySpace then
              let g := body.dropWhile isPySpace
              some (String.mk (if g.isEmpty then body.drop (body.length - 1) else g))
            else none
        | _ => none
  | _ => none

/-- Split a captured expression into stripped, non-empty dotted segments, as
`ExpressionResolver._resolve_path` does. -/
def pathSegments (expr : String) : List String :=
  ((pySplitDot expr).map pyStrip).filter (fun seg => ¬ seg = "")

/-- The per-segment walk of `ExpressionResolver._resolve_path`: `dict.get` on
dicts, `getattr(value, segment, None)` (which is `None` for JSON data)
otherwise; a missing segment silently becomes `None` and the walk continues. -/
def resolveAttrWalk : Value → List String → Value
  | v, [] => v
  | Value.obj kvs, seg :: rest => resolveAttrWalk ((pyGet kvs seg).getD Value.null) rest
  | _, _ :: rest => resolveAttrWalk Value.null rest

/-- `ExpressionResolver._resolve_path`: resolve a dotted-path expression
against the resolver's context and optional `item`. -/
def resolver_resolve_path (ctx : PyDict Value) (item : Option Value) (expr : String) : Value :=
  match pathSegments expr with
  | [] => Value.null
  | root :: rest =>
      if root = "context" then resolveAttrWalk (Value.obj ctx) rest
      else if root = "item" then resolveAttrWalk (item.getD Value.null) rest
      else (pyGet ctx root).getD Value.null

mutual
/-- `ExpressionResolver.resolve`: a whole-string `\x7b\x7b expr \x7d\x7d`
reference resolves to the value at its dotted path, containers resolve
element-wise, anything else passes through. -/
def resolver_resolve (ctx : PyDict Value) (item : Option Value) : Value → Value
  | Value.str s =>
      match matchExpression s with
      | some expr => resolver_resolve_path ctx item expr
      | none => Value.str s
  | Value.obj kvs => Value.obj (resolverResolvePairs ctx item kvs)
  | Value.arr xs => Value.arr (resolverResolveList ctx item xs)
  | v => v
  termination_by structural v => v

/-- Element-wise resolution of dict entries for `resolver_resolve`. -/
def resolverResolvePairs (ctx : PyDict Value) (item : Option Value) :
    List (String × Value) → List (String × Value)
  | [] => []
  | (k, v) :: rest => (k, resolver_resolve ctx item v) :: resolverResolvePairs ctx item rest
  termination_by structural l => l

/-- Element-wise resolution of list entries for `resolver_resolve`. -/
def resolverResolveList (ctx : PyDict Value) (item : Option Value) :
    List Value → List Value
  | [] => []
  | v :: rest => resolver_resolve ctx item v :: resolverResolveList ctx item rest
  termination_by structural l => l
end

/-- `models.workflow.PipelineStep` as consumed by the runtime engine: id,
component name, free-form parameter dict, optional condition template. -/
structure PipelineStep where
  id : String
  component : String
  params : PyDict Value
  condition : Option String
  deriving Repr

/-- A `workflows` section entry (external provider) as used by
`call_workflow`: endpoint URL and optional API-key environment variable. -/
structure WorkflowProviderDef where
  endpoint : String
  api_key_env : Option String
  deriving Repr

/-- The parts of the validated `workflow.yaml` document (`WorkflowYaml`) that
the engine reads: info.name, the providers map, the ordered pipeline steps and
the ordered ui step ids. -/
structure WorkflowYaml where
  infoName : String
  workflows : PyDict WorkflowProviderDef
  pipelineSteps : List PipelineStep
  uiStepIds : List String
  deriving Repr

/-- `runtime.models.SessionContext`: public and private context namespaces. -/
structure SessionContext where
  public : PyDict Value
  private' : PyDict Value
  deriving Repr

/-- `SessionContext.merged`: start empty, update with private, then with
public, so public entries win on key collisions. -/
def SessionContext.merged (ctx : SessionContext) : PyDict Value :=
  ctx.public.foldl (fun d kv => pySet d kv.1 kv.2)
    (ctx.private'.foldl (fun d kv => pySet d kv.1 kv.2) [])

/-- `runtime.models.WorkflowSession`: the complete persisted session state.
Timestamps are modelled as the `Env.now` values observed at `touch` calls. -/
structure WorkflowSession where
  session_id : String
  workflow_id : String
  status : String
  active_ui_step : Option String
  completed_ui_steps : List String
  step_status : PyDict String
  context : SessionContext
  step_outputs : PyDict Value
  last_error : Option String
  pipeline_index : Int
  created_at : Nat
  updated_at : Nat
  deriving Repr

/-- `runtime.models.WorkflowSessionPublicState`: the subset of session state
serialized for the frontend. -/
structure WorkflowSessionPublicState where
  session_id : String
  workflow_id : String
  status : String
  active_ui_step : Option String
  completed_ui_steps : List String
  step_status : PyDict String
  context : PyDict Value
  last_error : Option String
  updated_at : Nat
  deriving Repr

/-- `WorkflowSession.to_public_state`: serialize the session for frontend
consumption; only the public context namespace is copied in. -/
def WorkflowSession.to_public_state (s : WorkflowSession) : WorkflowSessionPublicState :=
  { session_id := s.session_id
    workflow_id := s.workflow_id
    status := s.status
    active_ui_step := s.active_ui_step
    completed_ui_steps := s.completed_ui_steps
    step_status := s.step_status
    context := s.context.public
    last_error := s.last_error
    updated_at := s.updated_at }

/-- `runtime.components.base.ExecutionResult`. -/
structure ExecutionResult where
  public : PyDict Value := []
  private' : PyDict Value := []
  step_output : PyDict Value := []
  next_step : Option String := none

/-- Plain Python truthiness of a JSON-like value (`if value:`). -/
def pyTruthy : Value → Bool
  | Value.null => false
  | Value.bool b => b
  | Value.num n => if n = 0 then false else true
  | Value.str s => !(s.isEmpty)
  | Value.bytes bs => !bs.isEmpty
  | Value.arr xs => !xs.isEmpty
  | Value.obj kvs => !kvs.isEmpty

/-- Read a parameter the code uses as `params.get(k)` followed by a Python
truthiness test; the embedding restricts such parameters to strings. -/
def truthyStrParam (params : PyDict Value) (k : String) : Option String :=
  match pyGet params k with
  | some (Value.str s) => if s.isEmpty then none else some s
  | _ => none

/-- `dict.setdefault(k, v)`. -/
def pySetDefault {α : Type u} (d : PyDict α) (k : String) (v : α) : PyDict α :=
  match pyGet d k with
  | some _ => d
  | none => pySet d k v

/-- `WorkflowEngine.build_template_context`: the merged context, plus the
`context`/`public`/`private`/`steps` aliases (later literal entries win). -/
def build_template_context (session : WorkflowSession) : PyDict Value :=
  let d := session.context.merged
  let d := pySet d "context" (Value.obj session.context.public)
  let d := pySet d "public" (Value.obj session.context.public)
  let d := pySet d "private" (Value.obj session.context.private')
  pySet d "steps" (Value.obj session.step_outputs)

/-- A `starlette` upload: optional client filename plus raw bytes
(the result of `await file.read()`). -/
structure UploadFile where
  filename : Option String
  content : List UInt8
  deriving Repr

/-- `runtime.components.base.ComponentHandler`: the `requires_user_input`
class attribute plus the `execute` coroutine, which here reads the engine's
workflow document and the session and returns an `ExecutionResult` or
raises. -/
structure ComponentHandler where
  requires_user_input : Bool
  execute : WorkflowYaml → WorkflowSession → PipelineStep → PyDict Value →
    Option UploadFile → Except String ExecutionResult

/-- `FileUploaderComponent.execute` (runtime/components/file_uploader.py):
store an uploaded file in the session context; no attached file or a missing
`target_key` raises `ValueError`. -/
def file_uploader_execute (env : Env) (_wf : WorkflowYaml) (_session : WorkflowSession)
    (step : PipelineStep) (_payload : PyDict Value) (file : Option UploadFile) :
    Except String ExecutionResult :=
  match file with
  | none => Except.error "ファイルが添付されていません。"
  | some f =>
      match truthyStrParam step.params "target_key" with
      | none => Except.error "file_uploader コンポーネントには target_key の指定が必要です。"
      | some target_key =>
          let encoding :=
            match pyGet step.params "encoding" with
            | some (Value.str s) => s
            | _ => "utf-8"
          let as_text := pyTruthy ((pyGet step.params "as_text").getD (Value.bool true))
          let content_bytes := f.content
          let decoded : Except String Value :=
            if as_text then
              match env.decodeBytes encoding content_bytes with
              | some text => Except.ok (Value.str text)
              | none => Except.error "ファイルを指定したエンコーディングでデコードできませんでした。"
            else Except.ok (Value.bytes content_bytes)
          match decoded with
          | Except.error e => Except.error e
          | Except.ok stored_value =>
              let metadata : PyDict Value :=
                [("filename", match f.filename with
                    | some n => Value.str n
                    | none => Value.null),
                 ("size", Value.num content_bytes.length),
                 ("encoding", Value.str (if as_text then encoding else "binary"))]
              let metadata_key := truthyStrParam step.params "metadata_key"
              match build_path_value target_key stored_value with
              | Except.error e => Except.error e
              | Except.ok private_updates =>
                  match metadata_key with
                  | some mkey =>
                      match build_path_value mkey (Value.obj metadata) with
                      | Except.error e => Except.error e
                      | Except.ok public_updates =>
                          Except.ok { public := public_updates, private' := private_updates,
                                      step_output := [("metadata", Value.obj metadata)] }
                  | none =>
                      Except.ok { private' := private_updates,
                                  step_output := [("metadata", Value.obj metadata)] }

/-- The per-item loop of `ForEachComponent.execute`: each item is exposed to
the template under `item_name` in a copy of the evaluation context. -/
def forEachMapItems (env : Env) (eval_context : PyDict Value) (item_name : String)
    (template : Value) : List Value → Except String (List Value)
  | [] => Except.ok []
  | item :: rest =>
      match render_template env (pySet eval_context item_name item) template with
      | Except.error e => Except.error e
      | Except.ok r =>
          match forEachMapItems env eval_context item_name template rest with
          | Except.error e => Except.error e
          | Except.ok rs => Except.ok (r :: rs)

/-- `ForEachComponent.execute` (runtime/components/for_each.py): map items at
`items_path` through a template into a list written to `output_path`. -/
def for_each_execute (env : Env) (_wf : WorkflowYaml) (session : WorkflowSession)
    (step : PipelineStep) (_payload : PyDict Value) (_file : Option UploadFile) :
    Except String ExecutionResult :=
  let params := step.params
  let missingMsg := "for_each コンポーネントには items_path, output_path, template の指定が必要です。"
  match truthyStrParam params "items_path" with
  | none => Except.error missingMsg
  | some items_path =>
  match truthyStrParam params "output_path" with
  | none => Except.error missingMsg
  | some output_path =>
  match pyGet params "template" with
  | none => Except.error missingMsg
  | some Value.null => Except.error missingMsg
  | some template =>
      let eval_context := build_template_context session
      match resolve_path eval_context items_path with
      | Except.error e => Except.error e
      | Except.ok items =>
          let item_name :=
            match pyGet params "item_name" with
            | some (Value.str s) => s
            | _ => "item"
          let iterated : Except String (List Value) :=
            match items with
            | Value.str _ => Except.error "items_path が指す値はリストまたは配列である必要があります。"
            | Value.arr xs => Except.ok xs
            | Value.obj kvs => Except.ok (kvs.map (fun kv => Value.str kv.1))
            | Value.bytes bs => Except.ok (bs.map (fun b => Value.num (Int.ofNat b.toNat)))
            | _ => Except.error "items_path が指す値はリストまたはイテラブルである必要があります。"
          match iterated with
          | Except.error e => Except.error e
          | Except.ok xs =>
              match forEachMapItems env eval_context item_name template xs with
              | Except.error e => Except.error e
              | Except.ok result =>
                  match build_path_value output_path (Value.arr result) with
                  | Except.error e => Except.error e
                  | Except.ok public_updates =>
                      Except.ok { public := public_updates,
                                  step_output := [("items", Value.arr result)] }

/-- `CallWorkflowComponent._build_headers`: JSON content type plus an optional
`Bearer` token looked up from the provider's API-key environment variable. -/
def call_workflow_build_headers (env : Env) (provider : WorkflowProviderDef) : PyDict String :=
  let headers : PyDict String := [("Content-Type", "application/json")]
  match provider.api_key_env with
  | none => headers
  | some envName =>
      if envName.isEmpty then headers
      else
        match env.getenv envName with
        | some key => if key.isEmpty then headers else pySet headers "Authorization" ("Bearer " ++ key)
        | none => headers

/-- `CallWorkflowComponent.execute` (runtime/components/call_workflow.py).
The in-place write `context.session.step_outputs[step.id] = extracted` of the
source is always immediately overwritten by `_apply_result` (the returned
`step_output` is never empty), so the embedding returns the result only. -/
def call_workflow_execute (env : Env) (wf : WorkflowYaml) (session : WorkflowSession)
    (step : PipelineStep) (_payload : PyDict Value) (_file : Option UploadFile) :
    Except String ExecutionResult :=
  let params := step.params
  match truthyStrParam params "workflow" with
  | none => Except.error "call_workflow コンポーネントには workflow の指定が必要です。"
  | some workflow_name =>
  match pyGet wf.workflows workflow_name with
  | none => Except.error ("workflows セクションに '" ++ workflow_name ++ "' の定義がありません。")
  | some provider =>
      let template_context := build_template_context session
      let input_template := (pyGet params "input_template").getD (Value.obj [])
      match render_template env template_context input_template with
      | Except.error e => Except.error e
      | Except.ok rendered_input =>
      match rendered_input with
      | Value.obj rendered_input_kvs =>
          let body : Except String (PyDict Value) :=
            match pyGet params "request_body" with
            | some rb =>
                if pyTruthy rb then
                  match render_template env
                      (pySet template_context "inputs" (Value.obj rendered_input_kvs)) rb with
                  | Except.error e => Except.error e
                  | Except.ok (Value.obj rendered_body_kvs) => Except.ok rendered_body_kvs
                  | Except.ok _ => Except.error "request_body の結果は辞書である必要があります。"
                else Except.ok [("inputs", Value.obj rendered_input_kvs)]
            | none => Except.ok [("inputs", Value.obj rendered_input_kvs)]
          match body with
          | Except.error e => Except.error e
          | Except.ok rendered_body =>
          let headers := call_workflow_build_headers env provider
          match env.httpPost provider.endpoint (Value.obj rendered_body) headers with
          | Except.error e => Except.error e
          | Except.ok data =>
          let extraction : Except String Value :=
            match truthyStrParam params "response_path" with
            | none => Except.ok data
            | some response_path =>
                let merged_context := pySetDefault template_context "response" data
                match data with
                | Value.obj kvs => resolve_path kvs response_path
                | _ => resolve_path merged_context response_path
          match extraction with
          | Except.error e => Except.error e
          | Except.ok extracted =>
          let private_updates : Except String (PyDict Value) :=
            match truthyStrParam params "target_key" with
            | some target_key => build_path_value target_key extracted
            | none => Except.ok []
          match private_updates with
          | Except.error e => Except.error e
          | Except.ok priv =>
          let public_base : Except String (PyDict Value) :=
            match pyGet params "public_context" with
            | some pm =>
                if pyTruthy pm then
                  match render_template env (pySet template_context "response" extracted) pm with
                  | Except.error e => Except.error e
                  | Except.ok (Value.obj kvs) => Except.ok kvs
                  | Except.ok _ => Except.error "public_context の結果は辞書である必要があります。"
                else Except.ok []
            | none => Except.ok []
          match public_base with
          | Except.error e => Except.error e
          | Except.ok pub0 =>
          let public_updates : Except String (PyDict Value) :=
            match truthyStrParam params "expose_public_key" with
            | some expose_key =>
                match build_path_value expose_key extracted with
                | Except.error e => Except.error e
                | Except.ok nested => Except.ok (deep_merge pub0 nested)
            | none => Except.ok pub0
          match public_updates with
          | Except.error e => Except.error e
          | Except.ok pub =>
              Except.ok { public := pub, private' := priv,
                          step_output := [("response", extracted), ("raw_response", data)] }
      | _ => Except.error "input_template の結果は辞書である必要があります。"

/-- The engine's component registry (`WorkflowEngine.__init__`). -/
def engineComponents (env : Env) : PyDict ComponentHandler :=
  [("file_uploader", { requires_user_input := true, execute := file_uploader_execute env }),
   ("for_each", { requires_user_input := false, execute := for_each_execute env }),
   ("call_workflow", { requires_user_input := false, execute := call_workflow_execute env })]

/-- `self._step_order`: pipeline step ids in document order. -/
def stepOrder (w : WorkflowYaml) : List String :=
  w.pipelineSteps.map (fun s => s.id)

/-- `self._step_by_id`: dict comprehension over the pipeline steps (a
duplicated id keeps the last step, as in Python). -/
def stepById (w : WorkflowYaml) (sid : String) : Option PipelineStep :=
  pyGet (pyDictOf (w.pipelineSteps.map (fun s => (s.id, s)))) sid

/-- `self._step_index`: id → position dict comprehension over `enumerate`
(a duplicated id keeps the last position). -/
def stepIndexOf (w : WorkflowYaml) (sid : String) : Option Int :=
  pyGet (pyDictOf ((stepOrder w).enum.map (fun p => (p.2, (p.1 : Int))))) sid

/-- `self._step_index[step.id]` for a step taken from the document, where the
lookup cannot fail (the default is never read). -/
def stepIndexD (w : WorkflowYaml) (sid : String) : Int :=
  (stepIndexOf w sid).getD 0

/-- `self._ui_index`. -/
def uiIndexOf (w : WorkflowYaml) (sid : String) : Option Int :=
  pyGet (pyDictOf (w.uiStepIds.enum.map (fun p => (p.2, (p.1 : Int))))) sid

/-- Python `range(a, b)` over integers. -/
def intRange (a b : Int) : List Int :=
  (List.range (b - a).toNat).map (fun (k : Nat) => a + (k : Int))

/-- `WorkflowEngine._next_ui_step`: the ui step after `ui_step_id` in ui
document order, if any. -/
def next_ui_step (w : WorkflowYaml) (ui_step_id : String) : Option String :=
  match uiIndexOf w ui_step_id with
  | none => none
  | some idx =>
      if idx + 1 ≥ (w.uiStepIds.length : Int) then none
      else pyIndex w.uiStepIds (idx + 1)

/-- `WorkflowEngine._next_user_step`: scan `range(index + 1, len(steps))` for
the first step whose registered handler requires user input.  The two inner
`none` fallbacks are unreachable for ids taken from `step_order`. -/
def next_user_step (env : Env) (w : WorkflowYaml) (index : Int) : Option PipelineStep :=
  (intRange (index + 1) (w.pipelineSteps.length : Int)).findSome? (fun next_idx =>
    match pyIndex (stepOrder w) next_idx with
    | none => none
    | some sid =>
        match stepById w sid with
        | none => none
        | some candidate =>
            match pyGet (engineComponents env) candidate.component with
            | some handler => if handler.requires_user_input then some candidate else none
            | none => none)

/-- A Python exception escaping step execution: the message, the step whose
execution raised it (model bookkeeping only), and the session object as
mutated up to the raise — Python mutates the session in place, so
`submit_step`'s handler persists exactly this state. -/
structure EngineFailure where
  msg : String
  atStep : Option String
  sess : WorkflowSession

/-- `WorkflowEngine._update_ui_state`: mark the bound ui step completed and
move `active_ui_step` forward for interactive steps; otherwise honour the
`activate_ui_step`/`ui_step` parameters. -/
def update_ui_state (w : WorkflowYaml) (session : WorkflowSession)
    (step : PipelineStep) (handler : ComponentHandler) : WorkflowSession :=
  let ui_step := truthyStrParam step.params "ui_step"
  let activate := truthyStrParam step.params "activate_ui_step"
  match handler.requires_user_input, ui_step with
  | true, some u =>
      let session :=
        if u ∈ session.completed_ui_steps then session
        else { session with completed_ui_steps := session.completed_ui_steps ++ [u] }
      let next_ui :=
        match activate with
        | some a => some a
        | none => next_ui_step w u
      { session with active_ui_step := some (next_ui.getD u) }
  | _, _ =>
      match activate with
      | some a => { session with active_ui_step := some a }
      | none =>
          match ui_step with
          | some u => { session with active_ui_step := some u }
          | none => session

/-- `WorkflowEngine._apply_result`: merge context deltas, record the step
output, mark the step completed, move the cursor to the step's index, update
the ui state. -/
def apply_result (w : WorkflowYaml) (session : WorkflowSession) (step : PipelineStep)
    (handler : ComponentHandler) (result : ExecutionResult) : WorkflowSession :=
  let session :=
    if !result.public.isEmpty then
      { session with context :=
        { session.context with public := deep_merge session.context.public result.public } }
    else session
  let session :=
    if !result.private'.isEmpty then
      { session with context :=
        { session.context with private' := deep_merge session.context.private' result.private' } }
    else session
  let session :=
    if !result.step_output.isEmpty then
      { session with step_outputs := pySet session.step_outputs step.id (Value.obj result.step_output) }
    else session
  let session :=
    { session with
      step_status := pySet session.step_status step.id "completed",
      pipeline_index := stepIndexD w step.id }
  update_ui_state w session step handler

/-- The fall-through body of `WorkflowEngine._execute_step` (after the
condition short-circuit): mark the step running, run the handler, apply its
result; a raising handler carries the session as mutated so far. -/
def execute_step_run (w : WorkflowYaml) (session : WorkflowSession)
    (step : PipelineStep) (handler : ComponentHandler) (payload : PyDict Value)
    (file : Option UploadFile) : Except EngineFailure WorkflowSession :=
  let session :=
    if ¬ (pyGet session.step_status step.id = some "running") then
      { session with step_status := pySet session.step_status step.id "running" }
    else session
  match handler.execute w session step payload file with
  | Except.error e => Except.error { msg := e, atStep := some step.id, sess := session }
  | Except.ok result => Except.ok (apply_result w session step handler result)

/-- `WorkflowEngine._execute_step`: a falsy condition marks the step completed
without running the handler (condition short-circuit); otherwise the step is
marked running, the handler runs, and its result is applied. -/
def execute_step (env : Env) (w : WorkflowYaml) (session : WorkflowSession)
    (step : PipelineStep) (handler : ComponentHandler) (payload : PyDict Value)
    (file : Option UploadFile) : Except EngineFailure WorkflowSession :=
  match step.condition with
  | some cond =>
      if cond.isEmpty then execute_step_run w session step handler payload file
      else
        match render_template env (build_template_context session) (Value.str cond) with
        | Except.error e => Except.error { msg := e, atStep := some step.id, sess := session }
        | Except.ok condition_value =>
            if ¬ truthy condition_value then
              Except.ok
                { session with
                  step_status := pySet session.step_status step.id "completed",
                  pipeline_index := stepIndexD w step.id }
            else execute_step_run w session step handler payload file
  | none => execute_step_run w session step handler payload file

/-- `WorkflowEngine._execute_autonomous_steps`: after a submission, keep
executing the step after the cursor while its handler does not require user
input.  The source's `while True` loop strictly increases the cursor on every
iteration (the executed step's index is at least `idx + 1`), so for the
engine's sessions it runs at most `len(steps) + 1` times; the fuel argument
(always called with `len(steps) + 2`) makes this a total function, and the
fuel-exhaustion branch coincides with the end-of-pipeline break. -/
def execute_autonomous_steps (env : Env) (w : WorkflowYaml) :
    Nat → WorkflowSession → Except EngineFailure WorkflowSession
  | 0, session => Except.ok session
  | fuel + 1, session =>
      let idx := session.pipeline_index
      let next_idx := idx + 1
      if next_idx ≥ (w.pipelineSteps.length : Int) then Except.ok session
      else
        match pyIndex (stepOrder w) next_idx with
        | none => Except.error { msg := "list index out of range", atStep := none, sess := session }
        | some step_id =>
        match stepById w step_id with
        | none => Except.error { msg := step_id, atStep := none, sess := session }
        | some step =>
        match pyGet (engineComponents env) step.component with
        | none =>
            Except.error
              { msg := "未対応のコンポーネント " ++ step.component ++ " が指定されました。",
                atStep := some step.id, sess := session }
        | some handler =>
            if handler.requires_user_input then Except.ok session
            else
              match execute_step env w session step handler [] none with
              | Except.error f => Except.error f
              | Except.ok session' => execute_autonomous_steps env w fuel session'

/-- `WorkflowEngine._update_session_status`: completed when no user step
remains after the cursor, otherwise awaiting input with the next user step's
bound ui step activated.  (`if session.last_error:` is Python truthiness, so
an empty-string error counts as no error.) -/
def update_session_status (env : Env) (w : WorkflowYaml) (session : WorkflowSession) :
    WorkflowSession :=
  let hasErr :=
    match session.last_error with
    | some e => !e.isEmpty
    | none => false
  if hasErr then { session with status := "awaiting_input" }
  else
    match next_user_step env w session.pipeline_index with
    | none => { session with status := "completed" }
    | some next_step =>
        let session := { session with status := "awaiting_input" }
        match truthyStrParam next_step.params "ui_step" with
        | some u => { session with active_ui_step := some u }
        | none => session

/-- The session store as the engine observes it (`StateStoreProtocol`):
`load` is `pyGet`, `create`/`save` are `pySet` keyed by session id. -/
abbrev SessionStore := PyDict WorkflowSession

/-- Result of one `WorkflowEngine.submit_step` call.  `rejected` is a
`ValueError` raised before any session mutation (nothing saved); `failed` is a
handler error recorded and saved before re-raising; `ok` carries the saved
session whose `to_public_state` the method returns. -/
inductive SubmitOutcome where
  | rejected (msg : String)
  | failed (atStep : Option String) (msg : String) (saved : WorkflowSession)
  | ok (saved : WorkflowSession)

/-- `WorkflowEngine.submit_step` (engine.py lines 85-128), returning the
outcome together with the updated store contents. -/
def submit_step (env : Env) (w : WorkflowYaml) (store : SessionStore)
    (session_id step_id : String) (payload : PyDict Value) (file : Option UploadFile) :
    SubmitOutcome × SessionStore :=
  match pyGet store session_id with
  | none => (SubmitOutcome.rejected "指定されたセッションは存在しません。", store)
  | some session =>
      let mismatch : Bool :=
        match next_user_step env w session.pipeline_index with
        | some expected => ¬ (expected.id = step_id)
        | none => false
      if mismatch then (SubmitOutcome.rejected "想定されていないステップが実行されました。", store)
      else
        match stepById w step_id with
        | none =>
            (SubmitOutcome.rejected ("定義されていないステップ " ++ step_id ++ " が指定されました。"),
              store)
        | some step =>
        match pyGet (engineComponents env) step.component with
        | none =>
            (SubmitOutcome.rejected ("未対応のコンポーネント " ++ step.component ++ " が指定されました。"),
              store)
        | some handler =>
            let session :=
              { session with
                status := "processing",
                step_status := pySet session.step_status step_id "running",
                last_error := none,
                updated_at := env.now }
            match (match execute_step env w session step handler payload file with
                   | Except.error f => Except.error f
                   | Except.ok s1 =>
                       match execute_autonomous_steps env w (w.pipelineSteps.length + 2) s1 with
                       | Except.error f => Except.error f
                       | Except.ok s2 => Except.ok (update_session_status env w s2)) with
            | Except.error f =>
                let saved :=
                  { f.sess with
                    step_status := pySet f.sess.step_status step_id "error",
                    status := "awaiting_input",
                    last_error := some f.msg,
                    updated_at := env.now }
                (SubmitOutcome.failed f.atStep f.msg saved, pySet store session_id saved)
            | Except.ok s2 =>
                let saved := { s2 with updated_at := env.now }
                (SubmitOutcome.ok saved, pySet store session_id saved)

/-- `WorkflowEngine.create_session`: a fresh session with every step pending,
cursor before the first step, first ui step active, stored under a new id. -/
def create_session (env : Env) (w : WorkflowYaml) (store : SessionStore) :
    WorkflowSession × SessionStore :=
  let session_id := env.newSessionId
  let session : WorkflowSession :=
    { session_id := session_id
      workflow_id := w.infoName
      status := "awaiting_input"
      active_ui_step := none
      completed_ui_steps := []
      step_status := (stepOrder w).foldl (fun d sid => pySet d sid "pending") []
      context := { public := [], private' := [] }
      step_outputs := []
      last_error := none
      pipeline_index := -1
      created_at := env.now
      updated_at := env.now }
  let session :=
    if w.uiStepIds.isEmpty then session
    else { session with active_ui_step := w.uiStepIds[0]? }
  (session, pySet store session_id session)

/-- `WorkflowEngine.get_session`: load and serialize a session, if present. -/
def get_session (store : SessionStore) (session_id : String) :
    Option WorkflowSessionPublicState :=
  (pyGet store session_id).map WorkflowSession.to_public_state

/-- `models.workflow.WorkflowProvider` (str enum). -/
inductive WorkflowProvider where
  | dify
  | mock
  deriving Repr, DecidableEq

/-- The enum's string value. -/
def WorkflowProvider.value : WorkflowProvider → String
  | WorkflowProvider.dify => "dify"
  | WorkflowProvider.mock => "mock"

/-- `Literal["GET", "POST"]` of `WorkflowEndpoint.method`. -/
inductive HttpMethod where
  | GET
  | POST
  deriving Repr, DecidableEq

/-- The literal's string value. -/
def HttpMethod.value : HttpMethod → String
  | HttpMethod.GET => "GET"
  | HttpMethod.POST => "POST"

/-- `models.workflow.WorkflowInfo`. -/
structure WorkflowInfo where
  name : String
  description : String
  version : String
  deriving Repr, DecidableEq

/-- `models.workflow.WorkflowEnvironment` (`variables'` is the source field
`variables`, a Lean keyword). -/
structure WorkflowEnvironment where
  name : String
  variables' : PyDict String
  deriving Repr, DecidableEq

/-- `models.workflow.WorkflowEndpoint` (aliases: `identifier` ↦ `id`,
`display_name` ↦ `name`). -/
structure WorkflowEndpoint where
  identifier : String
  display_name : String
  provider : WorkflowProvider
  endpoint : String
  method : HttpMethod
  headers : PyDict String
  payload : PyDict Value
  environments : List WorkflowEnvironment
  deriving Repr

/-- `PipelineStep = RootModel[CallWorkflowStep | ForEachStep | SetStateStep]`
of models/workflow.py, as one inductive (named `SpecStep` because the runtime
engine's distinct `PipelineStep` class is already embedded above).  The
`type` literal of each member is its constructor. -/
inductive SpecStep where
  | call (identifier : String) (name : String) (workflow : String)
      (input_mapping : PyDict String) (save_as : String) (on_error : Option String)
  | forEach (identifier : String) (collection : String) (item : String)
      (steps : List SpecStep)
  | setState (identifier : String) (updates : PyDict String)
  deriving Repr

/-- `models.workflow.PipelineDefinition`. -/
structure PipelineDefinition where
  entrypoint : String
  steps : PyDict (List SpecStep)
  deriving Repr

/-- `Literal[...]` of `UIComponent.type`. -/
inductive UICompType where
  | file_upload
  | button
  | table
  | text
  | form
  | container
  deriving Repr, DecidableEq

/-- The literal's string value. -/
def UICompType.value : UICompType → String
  | UICompType.file_upload => "file_upload"
  | UICompType.button => "button"
  | UICompType.table => "table"
  | UICompType.text => "text"
  | UICompType.form => "form"
  | UICompType.container => "container"

/-- `Literal["single_column", "two_column"]` of `UIStep.layout`. -/
inductive UILayout where
  | single_column
  | two_column
  deriving Repr, DecidableEq

/-- The literal's string value. -/
def UILayout.value : UILayout → String
  | UILayout.single_column => "single_column"
  | UILayout.two_column => "two_column"

/-- `models.workflow.UIComponent` (alias: `identifier` ↦ `id`). -/
structure UIComponent where
  identifier : String
  type : UICompType
  props : PyDict Value
  bindings : PyDict String
  deriving Repr

/-- `models.workflow.UIStep` (alias: `identifier` ↦ `id`). -/
structure UIStep where
  identifier : String
  title : String
  description : Option String
  layout : UILayout
  components : List UIComponent
  deriving Repr

/-- `models.workflow.UIDefinition`. -/
structure UIDefinition where
  steps : List UIStep
  deriving Repr

/-- `models.workflow.WorkflowSpecification`. -/
structure WorkflowSpecification where
  info : WorkflowInfo
  workflows : List WorkflowEndpoint
  pipeline : PipelineDefinition
  ui : Option UIDefinition
  deriving Repr

/-- `model_dump` of a `Dict[str, str]` field. -/
def dumpStrDict (d : PyDict String) : Value :=
  Value.obj (d.map (fun kv => (kv.1, Value.str kv.2)))

/-- `model_dump` of an `Optional[str]` field (Python `None` dumps as null). -/
def dumpOptStr : Option String → Value
  | some s => Value.str s
  | none => Value.null

/-- `WorkflowInfo.model_dump(by_alias=True)`. -/
def dumpInfo (i : WorkflowInfo) : Value :=
  Value.obj [("name", Value.str i.name), ("description", Value.str i.description),
    ("version", Value.str i.version)]

/-- `WorkflowEnvironment.model_dump(by_alias=True)`. -/
def dumpEnvironment (e : WorkflowEnvironment) : Value :=
  Value.obj [("name", Value.str e.name), ("variables", dumpStrDict e.variables')]

/-- A Python object as python-mode `model_dump(by_alias=True)` produces it:
either plain data every node of which `yaml.safe_dump` can represent
(str / int / None / dicts and lists of such — embedded by its transported
loaded value), or the one non-representable leaf this model contains, a
`WorkflowProvider` member (pydantic's python mode keeps the `(str, Enum)`
member object, not its `.value`), or a container mixing the two. -/
inductive PyDumpObj where
  | plain (v : Value)
  | enumMember (p : WorkflowProvider)
  | arr (xs : List PyDumpObj)
  | obj (kvs : List (String × PyDumpObj))

/-- The error `yaml.safe_dump` raises on an object `SafeRepresenter` has no
representer for (such as an enum member): `represent_undefined` raises
`RepresenterError("cannot represent an object", ...)`. -/
def representerError : String := "RepresenterError: cannot represent an object"

mutual
/-- `yaml.safe_dump`, at the loaded-value level: plain representable data is
transported faithfully to text (and loads back as the same value), but on a
`WorkflowProvider` member — a `(str, Enum)` instance, for which
`SafeRepresenter` has no representer and no multi-representer —
`represent_undefined` raises `RepresenterError`. -/
def safeDump : PyDumpObj → Except String Value
  | PyDumpObj.plain v => Except.ok v
  | PyDumpObj.enumMember _ => Except.error representerError
  | PyDumpObj.arr xs => do
      let vs ← safeDumpList xs
      Except.ok (Value.arr vs)
  | PyDumpObj.obj kvs => do
      let ps ← safeDumpPairs kvs
      Except.ok (Value.obj ps)
  termination_by structural x => x

/-- Element-wise `safeDump` of a list node. -/
def safeDumpList : List PyDumpObj → Except String (List Value)
  | [] => Except.ok []
  | x :: rest => do
      let v ← safeDump x
      let vs ← safeDumpList rest
      Except.ok ((v :: vs) : List Value)
  termination_by structural l => l

/-- Entry-wise `safeDump` of a mapping node. -/
def safeDumpPairs : List (String × PyDumpObj) → Except String (List (String × Value))
  | [] => Except.ok []
  | (k, x) :: rest => do
      let v ← safeDump x
      let vs ← safeDumpPairs rest
      Except.ok (((k, v) :: vs) : List (String × Value))
  termination_by structural l => l
end

/-- `WorkflowEndpoint.model_dump(by_alias=True)` in python mode: every field
dumps to plain representable data except `provider`, which stays the
`WorkflowProvider` enum member itself. -/
def dumpEndpoint (e : WorkflowEndpoint) : PyDumpObj :=
  PyDumpObj.obj [("id", PyDumpObj.plain (Value.str e.identifier)),
    ("name", PyDumpObj.plain (Value.str e.display_name)),
    ("provider", PyDumpObj.enumMember e.provider),
    ("endpoint", PyDumpObj.plain (Value.str e.endpoint)),
    ("method", PyDumpObj.plain (Value.str e.method.value)),
    ("headers", PyDumpObj.plain (dumpStrDict e.headers)),
    ("payload", PyDumpObj.plain (Value.obj e.payload)),
    ("environments", PyDumpObj.plain (Value.arr (e.environments.map dumpEnvironment)))]

mutual
/-- `PipelineStep.model_dump(by_alias=True)`: the dump of the union member. -/
def dumpStep : SpecStep → Value
  | SpecStep.call identifier name workflow input_mapping save_as on_error =>
      Value.obj [("type", Value.str "call_workflow"), ("id", Value.str identifier),
        ("name", Value.str name), ("workflow", Value.str workflow),
        ("input_mapping", dumpStrDict input_mapping), ("save_as", Value.str save_as),
        ("on_error", dumpOptStr on_error)]
  | SpecStep.forEach identifier collection item steps =>
      Value.obj [("type", Value.str "for_each"), ("id", Value.str identifier),
        ("collection", Value.str collection), ("item", Value.str item),
        ("steps", Value.arr (dumpStepList steps))]
  | SpecStep.setState identifier updates =>
      Value.obj [("type", Value.str "set_state"), ("id", Value.str identifier),
        ("updates", dumpStrDict updates)]

/-- Element-wise `dumpStep`. -/
def dumpStepList : List SpecStep → List Value
  | [] => []
  | s :: rest => dumpStep s :: dumpStepList rest
end

/-- `PipelineDefinition.model_dump(by_alias=True)`. -/
def dumpPipeline (p : PipelineDefinition) : Value :=
  Value.obj [("entrypoint", Value.str p.entrypoint),
    ("steps", Value.obj (p.steps.map (fun kv => (kv.1, Value.arr (dumpStepList kv.2)))))]

/-- `UIComponent.model_dump(by_alias=True)`. -/
def dumpUIComponent (c : UIComponent) : Value :=
  Value.obj [("id", Value.str c.identifier), ("type", Value.str c.type.value),
    ("props", Value.obj c.props), ("bindings", dumpStrDict c.bindings)]

/-- `UIStep.model_dump(by_alias=True)`. -/
def dumpUIStep (s : UIStep) : Value :=
  Value.obj [("id", Value.str s.identifier), ("title", Value.str s.title),
    ("description", dumpOptStr s.description), ("layout", Value.str s.layout.value),
    ("components", Value.arr (s.components.map dumpUIComponent))]

/-- `UIDefinition.model_dump(by_alias=True)`. -/
def dumpUIDefinition (u : UIDefinition) : Value :=
  Value.obj [("steps", Value.arr (u.steps.map dumpUIStep))]

/-- `self.model_dump(by_alias=True)` of `WorkflowSpecification` in python
mode: the submodels with no enum field (`info`, `pipeline`, `ui`) dump to
plain representable data; each `workflows` entry keeps its `provider` enum
member. -/
def model_dump_spec (w : WorkflowSpecification) : PyDumpObj :=
  PyDumpObj.obj [("info", PyDumpObj.plain (dumpInfo w.info)),
    ("workflows", PyDumpObj.arr (w.workflows.map dumpEndpoint)),
    ("pipeline", PyDumpObj.plain (dumpPipeline w.pipeline)),
    ("ui", PyDumpObj.plain (match w.ui with
           | some u => dumpUIDefinition u
           | none => Value.null))]

/-- `WorkflowSpecification.to_yaml`: `yaml.safe_dump(model_dump(by_alias=True))`,
embedded at the loaded-value level (the text encoding of a successfully
represented value is a faithful external transport; `safe_dump` raises
`RepresenterError` on the first `WorkflowProvider` member it reaches). -/
def to_yaml (w : WorkflowSpecification) : Except String Value :=
  safeDump (model_dump_spec w)

/-- pydantic field lookup with `populate_by_name`: the alias key wins, the
field name is the fallback (for unaliased fields both names coincide). -/
def vGetField (kvs : PyDict Value) (aliasKey fieldName : String) : Option Value :=
  match pyGet kvs aliasKey with
  | some v => some v
  | none => pyGet kvs fieldName

/-- A required pydantic field: absence is a validation error. -/
def reqField (kvs : PyDict Value) (aliasKey fieldName : String) : Except String Value :=
  match vGetField kvs aliasKey fieldName with
  | some v => Except.ok v
  | none => Except.error ("missing required field " ++ fieldName)

/-- Validate a `str` field. -/
def parseStr : Value → Except String String
  | Value.str s => Except.ok s
  | _ => Except.error "str expected"

/-- Validate an `Optional[str]` field. -/
def parseOptStr : Value → Except String (Option String)
  | Value.null => Except.ok none
  | Value.str s => Except.ok (some s)
  | _ => Except.error "str or null expected"

/-- Validate the entries of a `Dict[str, str]` field. -/
def parseStrPairs : List (String × Value) → Except String (PyDict String)
  | [] => Except.ok []
  | (k, Value.str s) :: rest => do
      let tail ← parseStrPairs rest
      Except.ok ((k, s) :: tail)
  | (_, _) :: _ => Except.error "str value expected"

/-- Validate a `Dict[str, str]` field. -/
def parseStrDict : Value → Except String (PyDict String)
  | Value.obj kvs => parseStrPairs kvs
  | _ => Except.error "dict expected"

/-- Validate a `Dict[str, Any]` field. -/
def parseAnyDict : Value → Except String (PyDict Value)
  | Value.obj kvs => Except.ok kvs
  | _ => Except.error "dict expected"

/-- Validate every element of a list field. -/
def parseListWith {α : Type} (f : Value → Except String α) : List Value → Except String (List α)
  | [] => Except.ok []
  | v :: rest => do
      let x ← f v
      let xs ← parseListWith f rest
      Except.ok (x :: xs)

/-- Validate a `WorkflowProvider` enum value. -/
def parseProvider : Value → Except String WorkflowProvider
  | Value.str s =>
      if s = "dify" then Except.ok WorkflowProvider.dify
      else if s = "mock" then Except.ok WorkflowProvider.mock
      else Except.error "invalid provider"
  | _ => Except.error "invalid provider"

/-- Validate the `Literal["GET", "POST"]` method field. -/
def parseMethod : Value → Except String HttpMethod
  | Value.str s =>
      if s = "GET" then Except.ok HttpMethod.GET
      else if s = "POST" then Except.ok HttpMethod.POST
      else Except.error "invalid method"
  | _ => Except.error "invalid method"

/-- `WorkflowInfo.model_validate`. -/
def parseInfo (v : Value) : Except String WorkflowInfo :=
  match v with
  | Value.obj kvs => do
      let name ← parseStr (← reqField kvs "name" "name")
      let description ← parseStr (← reqField kvs "description" "description")
      let version ←
        match pyGet kvs "version" with
        | some vv => parseStr vv
        | none => Except.ok "1.0.0"
      Except.ok { name := name, description := description, version := version }
  | _ => Except.error "WorkflowInfo: dict expected"

/-- `WorkflowEnvironment.model_validate`. -/
def parseEnvironment (v : Value) : Except String WorkflowEnvironment :=
  match v with
  | Value.obj kvs => do
      let name ← parseStr (← reqField kvs "name" "name")
      let vars ←
        match pyGet kvs "variables" with
        | some vv => parseStrDict vv
        | none => Except.ok []
      Except.ok { name := name, variables' := vars }
  | _ => Except.error "WorkflowEnvironment: dict expected"

/-- `WorkflowEndpoint.model_validate`. -/
def parseEndpoint (v : Value) : Except String WorkflowEndpoint :=
  match v with
  | Value.obj kvs => do
      let identifier ← parseStr (← reqField kvs "id" "identifier")
      let display_name ← parseStr (← reqField kvs "name" "display_name")
      let provider ← parseProvider (← reqField kvs "provider" "provider")
      let endpoint ← parseStr (← reqField kvs "endpoint" "endpoint")
      let method ←
        match pyGet kvs "method" with
        | some mv => parseMethod mv
        | none => Except.ok HttpMethod.POST
      let headers ←
        match pyGet kvs "headers" with
        | some hv => parseStrDict hv
        | none => Except.ok []
      let payload ←
        match pyGet kvs "payload" with
        | some pv => parseAnyDict pv
        | none => Except.ok []
      let environments ←
        match pyGet kvs "environments" with
        | some (Value.arr xs) => parseListWith parseEnvironment xs
        | some _ => Except.error "environments: list expected"
        | none => Except.ok []
      Except.ok { identifier := identifier, display_name := display_name,
                  provider := provider, endpoint := endpoint, method := method,
                  headers := headers, payload := payload, environments := environments }
  | _ => Except.error "WorkflowEndpoint: dict expected"

/-- Does a member dict's `type` discriminator admit the given literal?
(The literal field has a default, so an absent `type` admits every member.) -/
def typeTagOk (kvs : PyDict Value) (tag : String) : Bool :=
  match pyGet kvs "type" with
  | none => true
  | some (Value.str s) => s = tag
  | some _ => false

/-- `CallWorkflowStep.model_validate`. -/
def parseCallStep (v : Value) : Except String SpecStep :=
  match v with
  | Value.obj kvs =>
      if typeTagOk kvs "call_workflow" then do
        let identifier ← parseStr (← reqField kvs "id" "identifier")
        let name ← parseStr (← reqField kvs "name" "name")
        let workflow ← parseStr (← reqField kvs "workflow" "workflow")
        let input_mapping ←
          match pyGet kvs "input_mapping" with
          | some mv => parseStrDict mv
          | none => Except.ok []
        let save_as ← parseStr (← reqField kvs "save_as" "save_as")
        let on_error ←
          match pyGet kvs "on_error" with
          | some ov => parseOptStr ov
          | none => Except.ok none
        Except.ok (SpecStep.call identifier name workflow input_mapping save_as on_error)
      else Except.error "CallWorkflowStep: type mismatch"
  | _ => Except.error "CallWorkflowStep: dict expected"

/-- `SetStateStep.model_validate`. -/
def parseSetStateStep (v : Value) : Except String SpecStep :=
  match v with
  | Value.obj kvs =>
      if typeTagOk kvs "set_state" then do
        let identifier ← parseStr (← reqField kvs "id" "identifier")
        let updates ← parseStrDict (← reqField kvs "updates" "updates")
        Except.ok (SpecStep.setState identifier updates)
      else Except.error "SetStateStep: type mismatch"
  | _ => Except.error "SetStateStep: dict expected"

mutual
/-- `PipelineStep.model_validate`: the union members are tried in declaration
order (`CallWorkflowStep | ForEachStep | SetStateStep`); the `type`
discriminators make at most one succeed on dumped data. -/
def parseSpecStep (v : Value) : Except String SpecStep :=
  match parseCallStep v with
  | Except.ok s => Except.ok s
  | Except.error _ =>
      match parseForEachStep v with
      | Except.ok s => Except.ok s
      | Except.error _ => parseSetStateStep v
  termination_by 2 * sizeOf v + 1

/-- `ForEachStep.model_validate` (the recursive union member). -/
def parseForEachStep (v : Value) : Except String SpecStep :=
  match v with
  | Value.obj kvs =>
      if typeTagOk kvs "for_each" then
        match h : pyGet kvs "steps" with
        | some (Value.arr xs) => do
            let identifier ← parseStr (← reqField kvs "id" "identifier")
            let collection ← parseStr (← reqField kvs "collection" "collection")
            let item ← parseStr (← reqField kvs "item" "item")
            let steps ← parseStepList xs
            Except.ok (SpecStep.forEach identifier collection item steps)
        | some _ => Except.error "ForEachStep: steps list expected"
        | none => Except.error "ForEachStep: missing steps"
      else Except.error "ForEachStep: type mismatch"
  | _ => Except.error "ForEachStep: dict expected"
  termination_by 2 * sizeOf v
  decreasing_by
    have key : ∀ (d : PyDict Value) (kk : String) (w : Value),
        pyGet d kk = some w → sizeOf w < sizeOf d := by
      intro d
      induction d with
      | nil => intro kk w hh; simp [pyGet] at hh
      | cons hd tl ih =>
          intro kk w hh
          obtain ⟨k1, v1⟩ := hd
          simp only [pyGet] at hh
          by_cases hk : k1 = kk
          · rw [if_pos hk] at hh
            cases hh
            simp only [List.cons.sizeOf_spec, Prod.mk.sizeOf_spec]
            omega
          · rw [if_neg hk] at hh
            have := ih kk w hh
            simp only [List.cons.sizeOf_spec]
            omega
    have hx := key _ "steps" _ h
    simp only [Value.arr.sizeOf_spec] at hx
    simp only [Value.obj.sizeOf_spec]
    omega

/-- Element-wise `parseSpecStep`. -/
def parseStepList (l : List Value) : Except String (List SpecStep) :=
  match l with
  | [] => Except.ok []
  | x :: rest => do
      let s ← parseSpecStep x
      let ss ← parseStepList rest
      Except.ok (s :: ss)
  termination_by 2 * sizeOf l + 2
end

/-- Validate the `Dict[str, List[PipelineStep]]` pipeline steps mapping. -/
def parseStepListsDict : List (String × Value) → Except String (PyDict (List SpecStep))
  | [] => Except.ok []
  | (k, Value.arr xs) :: rest => do
      let steps ← parseStepList xs
      let tail ← parseStepListsDict rest
      Except.ok ((k, steps) :: tail)
  | (_, _) :: _ => Except.error "PipelineDefinition: list of steps expected"

/-- `PipelineDefinition.model_validate`. -/
def parsePipeline (v : Value) : Except String PipelineDefinition :=
  match v with
  | Value.obj kvs => do
      let entrypoint ←
        match pyGet kvs "entrypoint" with
        | some ev => parseStr ev
        | none => Except.ok "main"
      let steps ←
        match (← reqField kvs "steps" "steps") with
        | Value.obj skvs => parseStepListsDict skvs
        | _ => Except.error "PipelineDefinition: dict of step lists expected"
      Except.ok { entrypoint := entrypoint, steps := steps }
  | _ => Except.error "PipelineDefinition: dict expected"

/-- Validate the `UIComponent.type` literal. -/
def parseUICompType : Value → Except String UICompType
  | Value.str s =>
      if s = "file_upload" then Except.ok UICompType.file_upload
      else if s = "button" then Except.ok UICompType.button
      else if s = "table" then Except.ok UICompType.table
      else if s = "text" then Except.ok UICompType.text
      else if s = "form" then Except.ok UICompType.form
      else if s = "container" then Except.ok UICompType.container
      else Except.error "invalid component type"
  | _ => Except.error "invalid component type"

/-- Validate the `UIStep.layout` literal. -/
def parseUILayout : Value → Except String UILayout
  | Value.str s =>
      if s = "single_column" then Except.ok UILayout.single_column
      else if s = "two_column" then Except.ok UILayout.two_column
      else Except.error "invalid layout"
  | _ => Except.error "invalid layout"

/-- `UIComponent.model_validate`. -/
def parseUIComponent (v : Value) : Except String UIComponent :=
  match v with
  | Value.obj kvs => do
      let identifier ← parseStr (← reqField kvs "id" "identifier")
      let type ← parseUICompType (← reqField kvs "type" "type")
      let props ←
        match pyGet kvs "props" with
        | some pv => parseAnyDict pv
        | none => Except.ok []
      let bindings ←
        match pyGet kvs "bindings" with
        | some bv => parseStrDict bv
        | none => Except.ok []
      Except.ok { identifier := identifier, type := type, props := props, bindings := bindings }
  | _ => Except.error "UIComponent: dict expected"

/-- `UIStep.model_validate`. -/
def parseUIStep (v : Value) : Except String UIStep :=
  match v with
  | Value.obj kvs => do
      let identifier ← parseStr (← reqField kvs "id" "identifier")
      let title ← parseStr (← reqField kvs "title" "title")
      let description ←
        match pyGet kvs "description" with
        | some dv => parseOptStr dv
        | none => Except.ok none
      let layout ←
        match pyGet kvs "layout" with
        | some lv => parseUILayout lv
        | none => Except.ok UILayout.single_column
      let components ←
        match pyGet kvs "components" with
        | some (Value.arr xs) => parseListWith parseUIComponent xs
        | some _ => Except.error "UIStep: components list expected"
        | none => Except.ok []
      Except.ok { identifier := identifier, title := title, description := description,
                  layout := layout, components := components }
  | _ => Except.error "UIStep: dict expected"

/-- `UIDefinition.model_validate`. -/
def parseUIDefinition (v : Value) : Except String UIDefinition :=
  match v with
  | Value.obj kvs => do
      let steps ←
        match (← reqField kvs "steps" "steps") with
        | Value.arr xs => parseListWith parseUIStep xs
        | _ => Except.error "UIDefinition: steps list expected"
      Except.ok { steps := steps }
  | _ => Except.error "UIDefinition: dict expected"

/-- `WorkflowSpecification.model_validate`. -/
def parseWorkflowSpecification (v : Value) : Except String WorkflowSpecification :=
  match v with
  | Value.obj kvs => do
      let info ← parseInfo (← reqField kvs "info" "info")
      let workflows ←
        match (← reqField kvs "workflows" "workflows") with
        | Value.arr xs => parseListWith parseEndpoint xs
        | _ => Except.error "WorkflowSpecification: workflows list expected"
      let pipeline ← parsePipeline (← reqField kvs "pipeline" "pipeline")
      let ui ←
        match pyGet kvs "ui" with
        | none => Except.ok none
        | some Value.null => Except.ok none
        | some uv => do
            let u ← parseUIDefinition uv
            Except.ok (some u)
      Except.ok { info := info, workflows := workflows, pipeline := pipeline, ui := ui }
  | _ => Except.error "WorkflowSpecification: dict expected"

/-- `WorkflowSpecification.from_yaml`, embedded at the level of the loaded
YAML value (`yaml.safe_load(yaml_text) or {}` followed by the mapping check
and `model_validate`). -/
def from_yaml (v : Value) : Except String WorkflowSpecification :=
  let payload := if pyTruthy v then v else Value.obj []
  match payload with
  | Value.obj _ => parseWorkflowSpecification payload
  | _ => Except.error "WorkflowSpecification: input is not a mapping"

/-- A minimal loaded workflow YAML document declaring one `dify` endpoint. -/
def demoSpecV : Value :=
  Value.obj [("info", Value.obj [("name", Value.str "demo"),
      ("description", Value.str "d"), ("version", Value.str "1.0.0")]),
    ("workflows", Value.arr [Value.obj [("id", Value.str "w1"),
      ("name", Value.str "W"), ("provider", Value.str "dify"),
      ("endpoint", Value.str "http://x"), ("method", Value.str "POST"),
      ("headers", Value.obj []), ("payload", Value.obj []),
      ("environments", Value.arr [])]]),
    ("pipeline", Value.obj [("entrypoint", Value.str "main"),
      ("steps", Value.obj [])]),
    ("ui", Value.null)]

/-- The document `demoSpecV` validates to. -/
def demoSpecDoc : WorkflowSpecification :=
  { info := { name := "demo", description := "d", version := "1.0.0" },
    workflows := [
      { identifier := "w1", display_name := "W", provider := WorkflowProvider.dify,
        endpoint := "http://x", method := HttpMethod.POST, headers := [],
        payload := [], environments := [] }],
    pipeline := { entrypoint := "main", steps := [] },
    ui := none }

/-- Deterministic environment for the concrete scenarios: the provider
responds 200 with a small JSON body, uploaded files decode to "data". -/
def demoEnv : Env :=
  { jinjaRender := fun _ _ => Except.error "jinja: undefined variable",
    httpPost := fun _ _ _ => Except.ok (Value.obj [("status", Value.str "ok")]),
    getenv := fun _ => none,
    decodeBytes := fun _ _ => some "data",
    now := 5,
    newSessionId := "sid" }

/-- The same environment once the provider starts failing with HTTP 500
(`raise_for_status` raises). -/
def demoEnvFail : Env :=
  { demoEnv with
    httpPost := fun _ _ _ =>
      Except.error "Server error '500 Internal Server Error' for url 'http://mock'" }

/-- Interactive file-upload step bound to ui step `upload_ui`. -/
def demoStepA : PipelineStep :=
  { id := "A", component := "file_uploader",
    params := [("target_key", Value.str "inputs.upload"), ("ui_step", Value.str "upload_ui")],
    condition := none }

/-- Non-interactive provider call. -/
def demoStepB : PipelineStep :=
  { id := "B", component := "call_workflow",
    params := [("workflow", Value.str "prov")], condition := none }

/-- A `for_each` step missing its required parameters: its handler raises
`ValueError` as soon as it runs. -/
def demoStepBbad : PipelineStep :=
  { id := "B", component := "for_each", params := [], condition := none }

/-- Second non-interactive provider call. -/
def demoStepC : PipelineStep :=
  { id := "C", component := "call_workflow",
    params := [("workflow", Value.str "prov")], condition := none }

/-- Second interactive file-upload step bound to ui step `second_ui`. -/
def demoStepD : PipelineStep :=
  { id := "D", component := "file_uploader",
    params := [("target_key", Value.str "inputs.second"), ("ui_step", Value.str "second_ui")],
    condition := none }

/-- The single declared provider. -/
def demoProviders : PyDict WorkflowProviderDef :=
  [("prov", { endpoint := "http://mock", api_key_env := none })]

/-- Pipeline `[A, B]`: one upload then one provider call. -/
def demoWfAB : WorkflowYaml :=
  { infoName := "demo", workflows := demoProviders,
    pipelineSteps := [demoStepA, demoStepB], uiStepIds := ["upload_ui"] }

/-- Pipeline `[A, B, D]`: upload, provider call, second upload. -/
def demoWfABD : WorkflowYaml :=
  { infoName := "demo", workflows := demoProviders,
    pipelineSteps := [demoStepA, demoStepB, demoStepD],
    uiStepIds := ["upload_ui", "second_ui"] }

/-- Pipeline `[A, B, C]`: upload then two provider calls. -/
def demoWfABC : WorkflowYaml :=
  { infoName := "demo", workflows := demoProviders,
    pipelineSteps := [demoStepA, demoStepB, demoStepC], uiStepIds := ["upload_ui"] }

/-- Pipeline `[A, B]` where `B` is the broken `for_each`. -/
def demoWfABbad : WorkflowYaml :=
  { infoName := "demo", workflows := demoProviders,
    pipelineSteps := [demoStepA, demoStepBbad], uiStepIds := ["upload_ui"] }

/-- Pipeline `[A]` alone. -/
def demoWfA : WorkflowYaml :=
  { infoName := "demo", workflows := demoProviders,
    pipelineSteps := [demoStepA], uiStepIds := ["upload_ui"] }

/-- A concrete upload ("data" as bytes). -/
def demoFile : UploadFile :=
  { filename := some "a.csv", content := [100, 97, 116, 97] }

/-- Second provider on a distinct endpoint. -/
def demoProviders2 : PyDict WorkflowProviderDef :=
  [("prov", { endpoint := "http://mock", api_key_env := none }),
   ("prov2", { endpoint := "http://mock2", api_key_env := none })]

/-- Provider call against the second provider. -/
def demoStepC2 : PipelineStep :=
  { id := "C", component := "call_workflow",
    params := [("workflow", Value.str "prov2")], condition := none }

/-- Pipeline `[A, B, C]` where `C` calls the second provider. -/
def demoWfABC2 : WorkflowYaml :=
  { infoName := "demo", workflows := demoProviders2,
    pipelineSteps := [demoStepA, demoStepB, demoStepC2], uiStepIds := ["upload_ui"] }

/-- Environment where only the second provider's endpoint fails (HTTP 500). -/
def demoEnvFail2 : Env :=
  { demoEnv with
    httpPost := fun url _ _ =>
      if url = "http://mock2" then
        Except.error "Server error '500 Internal Server Error' for url 'http://mock2'"
      else Except.ok (Value.obj [("status", Value.str "ok")]) }

/-- Placeholder session used by `outcomeSaved` on a rejected outcome. -/
def emptySession : WorkflowSession :=
  { session_id := "", workflow_id := "", status := "awaiting_input",
    active_ui_step := none, completed_ui_steps := [], step_status := [],
    context := { public := [], private' := [] }, step_outputs := [],
    last_error := none, pipeline_index := -1, created_at := 0, updated_at := 0 }

/-- The session a submit outcome persisted (placeholder for rejections,
which persist nothing). -/
def outcomeSaved : SubmitOutcome → WorkflowSession
  | SubmitOutcome.ok s => s
  | SubmitOutcome.failed _ _ s => s
  | SubmitOutcome.rejected _ => emptySession

/-- The session persisted after uploading `demoFile` to step `A` of
`demoWfABC2` under `demoEnv` (all three steps ran and completed). -/
def c4Entry : WorkflowSession :=
  { session_id := "sid",
    workflow_id := "demo",
    status := "completed",
    active_ui_step := some "upload_ui",
    completed_ui_steps := ["upload_ui"],
    step_status := [("A", "completed"), ("B", "completed"), ("C", "completed")],
    context := { public := [],
                 private' := [("inputs", Value.obj [("upload", Value.str "data")])] },
    step_outputs :=
      [("A", Value.obj
          [("metadata", Value.obj
              [("filename", Value.str "a.csv"),
               ("size", Value.num 4),
               ("encoding", Value.str "utf-8")])]),
       ("B", Value.obj
          [("response", Value.obj [("status", Value.str "ok")]),
           ("raw_response", Value.obj [("status", Value.str "ok")])]),
       ("C", Value.obj
          [("response", Value.obj [("status", Value.str "ok")]),
           ("raw_response", Value.obj [("status", Value.str "ok")])])],
    last_error := none,
    pipeline_index := 2,
    created_at := 5,
    updated_at := 5 }

/-- The store holding the completed `demoWfABC2` session. -/
def c4Store1 : SessionStore := [("sid", c4Entry)]

/-- The session persisted after uploading `demoFile` to step `A` of
`demoWfABD` under `demoEnv` (`A` and `B` completed, waiting on `D`). -/
def c5Mid : WorkflowSession :=
  { session_id := "sid",
    workflow_id := "demo",
    status := "awaiting_input",
    active_ui_step := some "second_ui",
    completed_ui_steps := ["upload_ui"],
    step_status := [("A", "completed"), ("B", "completed"), ("D", "pending")],
    context := { public := [],
                 private' := [("inputs", Value.obj [("upload", Value.str "data")])] },
    step_outputs :=
      [("A", Value.obj
          [("metadata", Value.obj
              [("filename", Value.str "a.csv"),
               ("size", Value.num 4),
               ("encoding", Value.str "utf-8")])]),
       ("B", Value.obj
          [("response", Value.obj [("status", Value.str "ok")]),
           ("raw_response", Value.obj [("status", Value.str "ok")])])],
    last_error := none,
    pipeline_index := 1,
    created_at := 5,
    updated_at := 5 }

/-- The session persisted after then uploading `demoFile` to step `D`:
every step of `demoWfABD` completed. -/
def c5Done : WorkflowSession :=
  { session_id := "sid",
    workflow_id := "demo",
    status := "completed",
    active_ui_step := some "second_ui",
    completed_ui_steps := ["upload_ui", "second_ui"],
    step_status := [("A", "completed"), ("B", "completed"), ("D", "completed")],
    context := { public := [],
                 private' := [("inputs", Value.obj
                   [("upload", Value.str "data"), ("second", Value.str "data")])] },
    step_outputs :=
      [("A", Value.obj
          [("metadata", Value.obj
              [("filename", Value.str "a.csv"),
               ("size", Value.num 4),
               ("encoding", Value.str "utf-8")])]),
       ("B", Value.obj
          [("response", Value.obj [("status", Value.str "ok")]),
           ("raw_response", Value.obj [("status", Value.str "ok")])]),
       ("D", Value.obj
          [("metadata", Value.obj
              [("filename", Value.str "a.csv"),
               ("size", Value.num 4),
               ("encoding", Value.str "utf-8")])])],
    last_error := none,
    pipeline_index := 2,
    created_at := 5,
    updated_at := 5 }

/-- Spec-side path-existence predicate ("resolving a missing path"): does the
dotted path reach a value through nested dicts? -/
def pathExists : Value → List String → Bool
  | _, [] => true
  | Value.obj kvs, p :: rest =>
      match pyGet kvs p with
      | some v => pathExists v rest
      | none => false
  | _, _ :: _ => false

theorem pyGet_pySet_self {α : Type u} (d : PyDict α) (k : String) (v : α) :
    pyGet (pySet d k v) k = some v := by
  induction d with
  | nil => simp [pySet, pyGet]
  | cons hd tl ih =>
      obtain ⟨k1, v1⟩ := hd
      by_cases hk : k1 = k
      · simp [pySet, pyGet, hk]
      · simp [pySet, pyGet, hk, ih]

theorem pyGet_pySet_other {α : Type u} (d : PyDict α) (k k' : String) (v : α)
    (h : ¬ k = k') : pyGet (pySet d k v) k' = pyGet d k' := by
  induction d with
  | nil => simp [pySet, pyGet, h]
  | cons hd tl ih =>
      obtain ⟨k1, v1⟩ := hd
      by_cases hk : k1 = k
      · subst hk
        simp [pySet, pyGet, h]
      · by_cases hk' : k1 = k'
        · subst hk'
          simp [pySet, pyGet, hk]
        · simp [pySet, pyGet, hk, hk', ih]

/-- C8: the session view serialized to the client carries only the public
context namespace: changing the private namespace alone leaves the
`to_public_state` view identical, and the view's `context` field is exactly
the public namespace. -/
theorem C8_private_context_never_serialized (s : WorkflowSession) (p : PyDict Value) :
    WorkflowSession.to_public_state
        { s with context := { s.context with private' := p } } =
      WorkflowSession.to_public_state s ∧
    (WorkflowSession.to_public_state s).context = s.context.public := by
  exact ⟨rfl, rfl⟩

theorem parseStrPairs_dump (d : PyDict String) :
    parseStrPairs (d.map (fun kv => (kv.1, Value.str kv.2))) = Except.ok d := by
  induction d with
  | nil => simp [parseStrPairs]
  | cons hd tl ih =>
      obtain ⟨k1, v1⟩ := hd
      simp [parseStrPairs, ih, Bind.bind, Except.bind]

theorem parseStrDict_dump (d : PyDict String) :
    parseStrDict (dumpStrDict d) = Except.ok d := by
  simp [parseStrDict, dumpStrDict, parseStrPairs_dump]

theorem parseOptStr_dump (o : Option String) :
    parseOptStr (dumpOptStr o) = Except.ok o := by
  cases o <;> simp [parseOptStr, dumpOptStr]

theorem parseProvider_dump (p : WorkflowProvider) :
    parseProvider (Value.str p.value) = Except.ok p := by
  cases p <;> simp [parseProvider, WorkflowProvider.value]

theorem parseMethod_dump (m : HttpMethod) :
    parseMethod (Value.str m.value) = Except.ok m := by
  cases m <;> simp [parseMethod, HttpMethod.value]

theorem parseUICompType_dump (t : UICompType) :
    parseUICompType (Value.str t.value) = Except.ok t := by
  cases t <;> simp [parseUICompType, UICompType.value]

theorem parseUILayout_dump (l : UILayout) :
    parseUILayout (Value.str l.value) = Except.ok l := by
  cases l <;> simp [parseUILayout, UILayout.value]

theorem parseListWith_dump {α : Type} (f : Value → Except String α) (g : α → Value)
    (xs : List α) (h : ∀ x, f (g x) = Except.ok x) :
    parseListWith f (xs.map g) = Except.ok xs := by
  induction xs with
  | nil => simp [parseListWith]
  | cons hd tl ih => simp [parseListWith, h, ih, Bind.bind, Except.bind]

theorem parseInfo_dump (i : WorkflowInfo) : parseInfo (dumpInfo i) = Except.ok i := by
  simp [parseInfo, dumpInfo, reqField, vGetField, pyGet, parseStr, Bind.bind, Except.bind]

theorem parseEnvironment_dump (e : WorkflowEnvironment) :
    parseEnvironment (dumpEnvironment e) = Except.ok e := by
  simp [parseEnvironment, dumpEnvironment, reqField, vGetField, pyGet, parseStr,
    parseStrDict_dump, Bind.bind, Except.bind]

theorem safeDump_dumpEndpoint (e : WorkflowEndpoint) :
    safeDump (dumpEndpoint e) = Except.error representerError := rfl

mutual
theorem parseSpecStep_dump (s : SpecStep) : parseSpecStep (dumpStep s) = Except.ok s := by
  cases s with
  | call identifier name workflow input_mapping save_as on_error =>
      simp [dumpStep, parseSpecStep, parseCallStep, typeTagOk, pyGet, reqField, vGetField,
        parseStr, parseStrDict_dump, parseOptStr_dump, Bind.bind, Except.bind]
  | forEach identifier collection item steps =>
      have ih := parseStepList_dump steps
      simp [dumpStep, parseSpecStep, parseCallStep, parseForEachStep, typeTagOk, pyGet,
        reqField, vGetField, parseStr, ih, Bind.bind, Except.bind]
  | setState identifier updates =>
      simp [dumpStep, parseSpecStep, parseCallStep, parseForEachStep, parseSetStateStep,
        typeTagOk, pyGet, reqField, vGetField, parseStr, parseStrDict_dump,
        Bind.bind, Except.bind]
  termination_by sizeOf s

theorem parseStepList_dump (l : List SpecStep) :
    parseStepList (dumpStepList l) = Except.ok l := by
  cases l with
  | nil => simp [dumpStepList, parseStepList]
  | cons hd tl =>
      have ih1 := parseSpecStep_dump hd
      have ih2 := parseStepList_dump tl
      simp [dumpStepList, parseStepList, ih1, ih2, Bind.bind, Except.bind]
  termination_by sizeOf l
end

theorem parseStepListsDict_dump (d : PyDict (List SpecStep)) :
    parseStepListsDict (d.map (fun kv => (kv.1, Value.arr (dumpStepList kv.2)))) =
      Except.ok d := by
  induction d with
  | nil => simp [parseStepListsDict]
  | cons hd tl ih =>
      obtain ⟨k1, v1⟩ := hd
      simp [parseStepListsDict, parseStepList_dump, ih, Bind.bind, Except.bind]

theorem parsePipeline_dump (p : PipelineDefinition) :
    parsePipeline (dumpPipeline p) = Except.ok p := by
  simp [parsePipeline, dumpPipeline, reqField, vGetField, pyGet, parseStr,
    parseStepListsDict_dump, Bind.bind, Except.bind]

theorem parseUIComponent_dump (c : UIComponent) :
    parseUIComponent (dumpUIComponent c) = Except.ok c := by
  simp [parseUIComponent, dumpUIComponent, reqField, vGetField, pyGet, parseStr,
    parseUICompType_dump, parseAnyDict, parseStrDict_dump, Bind.bind, Except.bind]

theorem parseUIStep_dump (s : UIStep) : parseUIStep (dumpUIStep s) = Except.ok s := by
  simp [parseUIStep, dumpUIStep, reqField, vGetField, pyGet, parseStr,
    parseOptStr_dump, parseUILayout_dump, Bind.bind, Except.bind,
    parseListWith_dump parseUIComponent dumpUIComponent _ (fun x => parseUIComponent_dump x)]

theorem parseUIDefinition_dump (u : UIDefinition) :
    parseUIDefinition (dumpUIDefinition u) = Except.ok u := by
  simp [parseUIDefinition, dumpUIDefinition, reqField, vGetField, pyGet,
    Bind.bind, Except.bind,
    parseListWith_dump parseUIStep dumpUIStep _ (fun x => parseUIStep_dump x)]

/-- C9: serialization crashes for every document that declares a workflow
endpoint — python-mode `model_dump(by_alias=True)` keeps the
`WorkflowProvider` enum member, for which `yaml.safe_dump` has no
representer, so `to_yaml` raises `RepresenterError` — and succeeds exactly
for endpoint-free documents, for which parsing the serialized text restores
the document. -/
theorem C9_serialize_fails_unless_no_providers (w : WorkflowSpecification) :
    (w.workflows = [] ∧ ∃ v, to_yaml w = Except.ok v ∧ from_yaml v = Except.ok w) ∨
    (¬ w.workflows = [] ∧ to_yaml w = Except.error representerError) := by
  cases hw : w.workflows with
  | nil =>
      left
      refine ⟨rfl, Value.obj [("info", dumpInfo w.info), ("workflows", Value.arr []),
        ("pipeline", dumpPipeline w.pipeline),
        ("ui", match w.ui with | some u => dumpUIDefinition u | none => Value.null)],
        ?_, ?_⟩
      · simp [to_yaml, model_dump_spec, hw, safeDump, safeDumpList, safeDumpPairs,
          Bind.bind, Except.bind]
      · simp [from_yaml, pyTruthy, parseWorkflowSpecification, reqField, vGetField,
          pyGet, parseInfo_dump, parsePipeline_dump, parseListWith,
          Bind.bind, Except.bind]
        cases hu : w.ui with
        | none =>
            simp only []
            rw [← hu, ← hw]
        | some u =>
            have hd : dumpUIDefinition u =
                Value.obj [("steps", Value.arr (u.steps.map dumpUIStep))] := rfl
            simp only [hd]
            rw [← hd]
            simp only [parseUIDefinition_dump]
            rw [← hu, ← hw]
  | cons e rest =>
      right
      refine ⟨by simp, ?_⟩
      simp [to_yaml, model_dump_spec, hw, safeDump, safeDumpList, safeDumpPairs,
        dumpEndpoint, Bind.bind, Except.bind]

/-- C9 counterexample: `demoSpecV` is a loaded YAML document that validates
to the workflow document `demoSpecDoc` (one declared `dify` endpoint), yet
serializing `demoSpecDoc` raises `RepresenterError` instead of producing
YAML text — the serialize/parse round trip fails at the serialize step for
every document with a declared provider. -/
theorem C9_counterexample_provider_not_representable :
    from_yaml demoSpecV = Except.ok demoSpecDoc ∧
    ¬ demoSpecDoc.workflows = [] ∧
    to_yaml demoSpecDoc = Except.error representerError := by
  refine ⟨rfl, by simp [demoSpecDoc], rfl⟩

theorem resolvePathGo_missing (fullPath : String) :
    ∀ (v : Value) (segs : List String), pathExists v segs = false →
      ∃ msg, resolvePathGo fullPath v segs = Except.error msg := by
  intro v segs
  induction segs generalizing v with
  | nil => intro h; simp [pathExists] at h
  | cons p rest ih =>
      intro h
      cases v with
      | obj kvs =>
          cases hg : pyGet kvs p with
          | none =>
              simp only [resolvePathGo, hg]
              exact ⟨_, rfl⟩
          | some v' =>
              simp only [pathExists, hg] at h
              obtain ⟨msg, hmsg⟩ := ih v' h
              exact ⟨msg, by simp [resolvePathGo, hg, hmsg]⟩
      | null => exact ⟨_, rfl⟩
      | bool b => exact ⟨_, rfl⟩
      | num n => exact ⟨_, rfl⟩
      | str s => exact ⟨_, rfl⟩
      | bytes bs => exact ⟨_, rfl⟩
      | arr xs => exact ⟨_, rfl⟩

/-- C7 counterexample: `ExpressionResolver.resolve` of the whole-string
reference `\x7b\x7b context.missing \x7d\x7d` against an empty context does
not raise — it silently yields `None`, contradicting the claim that
missing-path resolution is strict. -/
theorem C7_counterexample_resolver_yields_null :
    resolver_resolve [] none (Value.str "\x7b\x7b context.missing \x7d\x7d") = Value.null := by
  have hm : matchExpression "\x7b\x7b context.missing \x7d\x7d" = some "context.missing " := by
    decide
  have hp : pathSegments "context.missing " = ["context", "missing"] := by decide
  simp [resolver_resolve, hm, resolver_resolve_path, hp, resolveAttrWalk, pyGet]

/-- C7 as amended: `ExpressionResolver._resolve_path` is non-strict (see the
counterexample); the strict behaviour the claim describes holds for
`utils.resolve_path`, which raises a `KeyError` for every non-empty dotted
path that does not exist in the data. -/
theorem C7_resolve_path_strict (data : PyDict Value) (path : String)
    (h : ¬ path = "")
    (hmissing : pathExists (Value.obj data) (pySplitDot path) = false) :
    ∃ msg, resolve_path data path = Except.error msg := by
  have := resolvePathGo_missing path (Value.obj data) (pySplitDot path) hmissing
  simpa [resolve_path, h] using this

/-- Witness for the amended C7 at a concrete missing path. -/
theorem C7_resolve_path_strict_witness :
    ¬ ("steps.call_api" : String) = "" ∧
      pathExists (Value.obj [("inputs", Value.str "x")]) (pySplitDot "steps.call_api") = false ∧
      ∃ msg, resolve_path [("inputs", Value.str "x")] "steps.call_api" = Except.error msg := by
  refine ⟨by decide, by decide, ?_⟩
  exact C7_resolve_path_strict [("inputs", Value.str "x")] "steps.call_api" (by decide)
    (by decide)

theorem pySet_append {α : Type u} (d : PyDict α) (k : String) (v : α)
    (h : ∀ p ∈ d, ¬ p.1 = k) : pySet d k v = d ++ [(k, v)] := by
  induction d with
  | nil => simp [pySet]
  | cons hd tl ih =>
      obtain ⟨k1, v1⟩ := hd
      have hk1 : ¬ k1 = k := h (k1, v1) (by simp)
      simp only [pySet, if_neg hk1, List.cons_append, List.cons.injEq, true_and]
      exact ih (fun p hp => h p (by simp [hp]))

theorem pyGet_append_left {α : Type u} (d d' : PyDict α) (k : String) (v : α)
    (h : pyGet d k = some v) : pyGet (d ++ d') k = some v := by
  induction d with
  | nil => simp [pyGet] at h
  | cons hd tl ih =>
      obtain ⟨k1, v1⟩ := hd
      by_cases hk : k1 = k
      · simp only [pyGet, if_pos hk] at h ⊢
        exact h
      · simp only [pyGet, if_neg hk] at h ⊢
        exact ih h

theorem pyDictOf_foldl_acc {α : Type u} (pairs : List (String × α)) :
    ∀ acc : PyDict α, (pairs.map Prod.fst).Nodup →
      (∀ p ∈ acc, p.1 ∉ pairs.map Prod.fst) →
      pairs.foldl (fun d kv => pySet d kv.1 kv.2) acc = acc ++ pairs := by
  induction pairs with
  | nil => intro acc _ _; simp
  | cons hd tl ih =>
      intro acc hnodup hdisj
      obtain ⟨k1, v1⟩ := hd
      simp only [List.map, List.nodup_cons] at hnodup
      have hset : pySet acc k1 v1 = acc ++ [(k1, v1)] := by
        apply pySet_append
        intro p hp
        have := hdisj p hp
        simp only [List.map, List.mem_cons] at this
        intro hc
        exact this (Or.inl hc)
      simp only [List.foldl, hset]
      rw [ih (acc ++ [(k1, v1)]) hnodup.2]
      · simp
      · intro p hp
        rcases List.mem_append.mp hp with hin | hin
        · have := hdisj p hin
          simp only [List.map, List.mem_cons] at this
          intro hc
          exact this (Or.inr hc)
        · simp only [List.mem_singleton] at hin
          rw [hin]
          exact hnodup.1

theorem pyDictOf_nodup {α : Type u} (pairs : List (String × α))
    (h : (pairs.map Prod.fst).Nodup) : pyDictOf pairs = pairs := by
  have := pyDictOf_foldl_acc pairs [] h (by simp)
  simpa [pyDictOf] using this

theorem pyGet_enumFrom_nodup (l : List String) :
    ∀ (i : Nat) (n : Nat) (sid : String), l.Nodup → l[n]? = some sid →
      pyGet ((List.enumFrom i l).map (fun p => (p.2, (p.1 : Int)))) sid = some ((i : Int) + n) := by
  induction l with
  | nil => intro i n sid _ h; simp at h
  | cons hd tl ih =>
      intro i n sid hnodup h
      cases n with
      | zero =>
          simp only [List.getElem?_cons_zero, Option.some.injEq] at h
          subst h
          simp [List.enumFrom_cons, pyGet]
      | succ m =>
          simp only [List.getElem?_cons_succ] at h
          have hmem : sid ∈ tl := List.getElem?_mem h
          have hne : ¬ hd = sid := by
            intro hc
            rw [hc] at hnodup
            exact (List.nodup_cons.mp hnodup).1 hmem
          simp only [List.enumFrom_cons, List.map, pyGet, if_neg hne]
          have := ih (i + 1) m sid (List.nodup_cons.mp hnodup).2 h
          rw [this]
          congr 1
          push_cast
          ring

theorem stepIndexOf_nodup (w : WorkflowYaml) (n : Nat) (sid : String)
    (hnodup : (stepOrder w).Nodup) (h : (stepOrder w)[n]? = some sid) :
    stepIndexOf w sid = some (n : Int) := by
  have hkeys : (((stepOrder w).enum.map (fun p => (p.2, (p.1 : Int)))).map Prod.fst).Nodup := by
    rw [List.map_map]
    have hfun : (Prod.fst ∘ fun p : Nat × String => (p.2, (p.1 : Int))) = Prod.snd := by
      funext p
      rfl
    rw [hfun, List.enum_map_snd]
    exact hnodup
  rw [stepIndexOf, pyDictOf_nodup _ hkeys]
  have := pyGet_enumFrom_nodup (stepOrder w) 0 n sid hnodup h
  simpa [List.enum] using this

theorem pyGet_mem {α : Type u} (d : PyDict α) (k : String) (v : α)
    (h : pyGet d k = some v) : (k, v) ∈ d := by
  induction d with
  | nil => simp [pyGet] at h
  | cons hd tl ih =>
      obtain ⟨k1, v1⟩ := hd
      by_cases hk : k1 = k
      · simp only [pyGet, if_pos hk] at h
        cases h
        simp [hk]
      · simp only [pyGet, if_neg hk] at h
        exact List.mem_cons_of_mem _ (ih h)

theorem pySet_subset {α : Type u} (d : PyDict α) (k : String) (v : α) (p : String × α)
    (h : p ∈ pySet d k v) : p ∈ d ∨ p = (k, v) := by
  induction d with
  | nil => simpa [pySet] using h
  | cons hd tl ih =>
      obtain ⟨k1, v1⟩ := hd
      by_cases hk : k1 = k
      · simp only [pySet, if_pos hk, List.mem_cons] at h
        rcases h with h | h
        · right; rw [h, hk]
        · left; exact List.mem_cons_of_mem _ h
      · simp only [pySet, if_neg hk, List.mem_cons] at h
        rcases h with h | h
        · left; simp [h]
        · rcases ih h with h' | h'
          · left; exact List.mem_cons_of_mem _ h'
          · right; exact h'

theorem pyDictOf_foldl_subset {α : Type u} (pairs : List (String × α)) (p : String × α) :
    ∀ acc : PyDict α, p ∈ pairs.foldl (fun d kv => pySet d kv.1 kv.2) acc →
      p ∈ acc ∨ p ∈ pairs := by
  induction pairs with
  | nil => intro acc h'; simpa using h'
  | cons hd tl ih =>
      intro acc h'
      simp only [List.foldl] at h'
      rcases ih (pySet acc hd.1 hd.2) h' with h'' | h''
      · rcases pySet_subset acc hd.1 hd.2 p h'' with h3 | h3
        · exact Or.inl h3
        · right
          rw [h3]
          simp
      · right
        exact List.mem_cons_of_mem _ h''

theorem pyDictOf_subset {α : Type u} (pairs : List (String × α)) (p : String × α)
    (h : p ∈ pyDictOf pairs) : p ∈ pairs := by
  rcases pyDictOf_foldl_subset pairs p [] h with h' | h'
  · simp at h'
  · exact h'

theorem stepById_id (w : WorkflowYaml) (sid : String) (step : PipelineStep)
    (h : stepById w sid = some step) : step.id = sid := by
  have hmem := pyDictOf_subset _ _ (pyGet_mem _ _ _ h)
  simp only [List.mem_map] at hmem
  obtain ⟨s, _, hs⟩ := hmem
  cases hs
  rfl

theorem stepById_mem_stepOrder (w : WorkflowYaml) (sid : String) (step : PipelineStep)
    (h : stepById w sid = some step) : sid ∈ stepOrder w := by
  have hmem := pyDictOf_subset _ _ (pyGet_mem _ _ _ h)
  simp only [List.mem_map] at hmem
  obtain ⟨s, hsmem, hs⟩ := hmem
  obtain ⟨h1, h2⟩ := Prod.mk.injEq .. ▸ hs
  rw [stepOrder]
  exact List.mem_map.mpr ⟨s, hsmem, h1⟩

theorem stepIndexOf_of_stepById (w : WorkflowYaml) (sid : String) (step : PipelineStep)
    (hnodup : (stepOrder w).Nodup) (h : stepById w sid = some step) :
    ∃ n : Nat, (stepOrder w)[n]? = some sid ∧ stepIndexOf w sid = some (n : Int) := by
  have hmem := stepById_mem_stepOrder w sid step h
  obtain ⟨n, hn, hget⟩ := List.mem_iff_getElem.mp hmem
  refine ⟨n, ?_, ?_⟩
  · rw [List.getElem?_eq_getElem hn, hget]
  · exact stepIndexOf_nodup w n sid hnodup (by rw [List.getElem?_eq_getElem hn, hget])

theorem intRange_nil (a b : Int) (h : b ≤ a) : intRange a b = [] := by
  have : (b - a).toNat = 0 := by omega
  simp [intRange, this]

theorem intRange_cons (a b : Int) (h : a < b) : intRange a b = a :: intRange (a + 1) b := by
  have h1 : (b - a).toNat = (b - (a + 1)).toNat + 1 := by omega
  rw [intRange, h1, List.range_succ_eq_map]
  simp only [List.map_cons, List.map_map, intRange, Nat.cast_zero, add_zero]
  have h2 : ((fun k : Nat => a + (k : Int)) ∘ Nat.succ) = fun k : Nat => a + 1 + (k : Int) := by
    funext k
    simp only [Function.comp]
    push_cast
    ring
  rw [h2]

theorem pyIndex_nonneg {α : Type u} (xs : List α) (i : Int) (h : 0 ≤ i) :
    pyIndex xs i = xs[i.toNat]? := by
  simp [pyIndex, h]

theorem pyIndex_getElem {α : Type u} (xs : List α) (i : Int) (h : 0 ≤ i)
    (hlt : i < (xs.length : Int)) :
    ∃ x, pyIndex xs i = some x ∧ xs[i.toNat]? = some x := by
  rw [pyIndex_nonneg xs i h]
  have : i.toNat < xs.length := by omega
  exact ⟨xs[i.toNat], List.getElem?_eq_getElem this, List.getElem?_eq_getElem this⟩

theorem update_ui_state_preserves (w : WorkflowYaml) (s : WorkflowSession)
    (step : PipelineStep) (hd : ComponentHandler) :
    (update_ui_state w s step hd).step_status = s.step_status ∧
    (update_ui_state w s step hd).pipeline_index = s.pipeline_index ∧
    (update_ui_state w s step hd).last_error = s.last_error ∧
    (update_ui_state w s step hd).status = s.status ∧
    (update_ui_state w s step hd).context = s.context ∧
    (update_ui_state w s step hd).step_outputs = s.step_outputs := by
  cases hreq : hd.requires_user_input <;>
    cases hui : truthyStrParam step.params "ui_step" <;>
      cases hact : truthyStrParam step.params "activate_ui_step" <;>
        simp only [update_ui_state, hreq, hui, hact] <;>
          try exact ⟨rfl, rfl, rfl, rfl, rfl, rfl⟩
  all_goals
    first
    | exact ⟨rfl, rfl, rfl, rfl, rfl, rfl⟩
    | simp
    | (split <;> simp)

theorem apply_result_fields (w : WorkflowYaml) (s : WorkflowSession) (step : PipelineStep)
    (hd : ComponentHandler) (r : ExecutionResult) :
    (apply_result w s step hd r).step_status = pySet s.step_status step.id "completed" ∧
    (apply_result w s step hd r).pipeline_index = stepIndexD w step.id ∧
    (apply_result w s step hd r).last_error = s.last_error ∧
    (apply_result w s step hd r).status = s.status := by
  have hu := fun s' => update_ui_state_preserves w s' step hd
  simp only [apply_result]
  split_ifs <;>
    refine ⟨?_, ?_, ?_, ?_⟩ <;>
      simp [(hu _).1, (hu _).2.1, (hu _).2.2.1, (hu _).2.2.2.1]

theorem execute_step_run_ok (w : WorkflowYaml) (s : WorkflowSession)
    (step : PipelineStep) (hd : ComponentHandler) (payload : PyDict Value)
    (file : Option UploadFile) (s' : WorkflowSession)
    (h : execute_step_run w s step hd payload file = Except.ok s') :
    s'.pipeline_index = stepIndexD w step.id ∧
    pyGet s'.step_status step.id = some "completed" ∧
    (∀ x, ¬ x = step.id → pyGet s'.step_status x = pyGet s.step_status x) ∧
    s'.last_error = s.last_error ∧
    s'.status = s.status := by
  unfold execute_step_run at h
  dsimp only [] at h
  split at h
  · exact absurd h (by simp)
  · rename_i r heq
    injection h with h
    subst h
    obtain ⟨h1, h2, h3, h4⟩ := apply_result_fields w _ step hd r
    refine ⟨h2, ?_, ?_, ?_, ?_⟩
    · rw [h1]
      exact pyGet_pySet_self _ _ _
    · intro x hx
      rw [h1, pyGet_pySet_other _ _ _ _ (fun hc => hx hc.symm)]
      by_cases hC : ¬ pyGet s.step_status step.id = some "running"
      · simp only [if_pos hC]
        exact pyGet_pySet_other _ _ _ _ (fun hc => hx hc.symm)
      · simp only [if_neg hC]
    · rw [h3]
      by_cases hC : ¬ pyGet s.step_status step.id = some "running" <;> simp [hC]
    · rw [h4]
      by_cases hC : ¬ pyGet s.step_status step.id = some "running" <;> simp [hC]

theorem execute_step_ok (env : Env) (w : WorkflowYaml) (s : WorkflowSession)
    (step : PipelineStep) (hd : ComponentHandler) (payload : PyDict Value)
    (file : Option UploadFile) (s' : WorkflowSession)
    (h : execute_step env w s step hd payload file = Except.ok s') :
    s'.pipeline_index = stepIndexD w step.id ∧
    pyGet s'.step_status step.id = some "completed" ∧
    (∀ x, ¬ x = step.id → pyGet s'.step_status x = pyGet s.step_status x) ∧
    s'.last_error = s.last_error ∧
    s'.status = s.status := by
  unfold execute_step at h
  split at h
  · split at h
    · exact execute_step_run_ok w s step hd payload file s' h
    · split at h
      · exact absurd h (by simp)
      · split at h
        · injection h with h
          subst h
          refine ⟨rfl, pyGet_pySet_self _ _ _, ?_, rfl, rfl⟩
          intro x hx
          exact pyGet_pySet_other _ _ _ _ (fun hc => hx hc.symm)
        · exact execute_step_run_ok w s step hd payload file s' h
  · exact execute_step_run_ok w s step hd payload file s' h

theorem execute_step_run_err (w : WorkflowYaml) (s : WorkflowSession)
    (step : PipelineStep) (hd : ComponentHandler) (payload : PyDict Value)
    (file : Option UploadFile) (f : EngineFailure)
    (h : execute_step_run w s step hd payload file = Except.error f) :
    f.atStep = some step.id ∧
    f.sess.pipeline_index = s.pipeline_index ∧
    f.sess.last_error = s.last_error ∧
    f.sess.status = s.status := by
  unfold execute_step_run at h
  dsimp only [] at h
  split at h
  · rename_i e heq
    injection h with h
    subst h
    refine ⟨rfl, ?_, ?_, ?_⟩ <;>
      by_cases hC : ¬ pyGet s.step_status step.id = some "running" <;> simp [hC]
  · exact absurd h (by simp)

theorem execute_step_err (env : Env) (w : WorkflowYaml) (s : WorkflowSession)
    (step : PipelineStep) (hd : ComponentHandler) (payload : PyDict Value)
    (file : Option UploadFile) (f : EngineFailure)
    (h : execute_step env w s step hd payload file = Except.error f) :
    f.atStep = some step.id ∧
    f.sess.pipeline_index = s.pipeline_index ∧
    f.sess.last_error = s.last_error ∧
    f.sess.status = s.status := by
  unfold execute_step at h
  split at h
  · split at h
    · exact execute_step_run_err w s step hd payload file f h
    · split at h
      · rename_i e heq
        injection h with h
        subst h
        exact ⟨rfl, rfl, rfl, rfl⟩
      · split at h
        · exact absurd h (by simp)
        · exact execute_step_run_err w s step hd payload file f h
  · exact execute_step_run_err w s step hd payload file f h

theorem pyGet_some_of_key_mem {α : Type u} (d : PyDict α) (k : String)
    (h : k ∈ d.map Prod.fst) : ∃ v, pyGet d k = some v := by
  induction d with
  | nil => simp at h
  | cons hd tl ih =>
      obtain ⟨k1, v1⟩ := hd
      by_cases hk : k1 = k
      · exact ⟨v1, by simp [pyGet, hk]⟩
      · simp only [List.map, List.mem_cons] at h
        rcases h with h | h
        · exact absurd h.symm hk
        · obtain ⟨v, hv⟩ := ih h
          exact ⟨v, by simp [pyGet, hk, hv]⟩

theorem stepOrder_eq_idMap_keys (w : WorkflowYaml) :
    (w.pipelineSteps.map (fun st => (st.id, st))).map Prod.fst = stepOrder w := by
  rw [stepOrder, List.map_map]
  rfl

theorem stepById_of_mem (w : WorkflowYaml) (hnodup : (stepOrder w).Nodup) (sid : String)
    (h : sid ∈ stepOrder w) : ∃ step, stepById w sid = some step ∧ step.id = sid := by
  have hkeys : ((w.pipelineSteps.map (fun st => (st.id, st))).map Prod.fst).Nodup := by
    rw [stepOrder_eq_idMap_keys]
    exact hnodup
  have hmem : sid ∈ (w.pipelineSteps.map (fun st => (st.id, st))).map Prod.fst := by
    rw [stepOrder_eq_idMap_keys]
    exact h
  obtain ⟨v, hv⟩ := pyGet_some_of_key_mem _ sid hmem
  have hby : stepById w sid = some v := by
    rw [stepById, pyDictOf_nodup _ hkeys]
    exact hv
  exact ⟨v, hby, stepById_id w sid v hby⟩

theorem stepIndexD_of_pyIndex (w : WorkflowYaml) (hnodup : (stepOrder w).Nodup)
    (j : Int) (sid : String) (h0 : 0 ≤ j) (h : pyIndex (stepOrder w) j = some sid) :
    stepIndexOf w sid = some j ∧ stepIndexD w sid = j := by
  rw [pyIndex_nonneg _ _ h0] at h
  have := stepIndexOf_nodup w j.toNat sid hnodup h
  rw [Int.toNat_of_nonneg h0] at this
  exact ⟨this, by rw [stepIndexD, this]; rfl⟩

theorem execute_autonomous_steps_ok (env : Env) (w : WorkflowYaml)
    (hnodup : (stepOrder w).Nodup) :
    ∀ (fuel : Nat) (s s' : WorkflowSession),
      execute_autonomous_steps env w fuel s = Except.ok s' →
      -1 ≤ s.pipeline_index →
      s.pipeline_index ≤ s'.pipeline_index ∧
      s'.last_error = s.last_error ∧
      s'.status = s.status ∧
      (∀ x, pyGet s'.step_status x = pyGet s.step_status x ∨
        pyGet s'.step_status x = some "completed") ∧
      (∀ (j : Int) (sid : String), s.pipeline_index < j → j ≤ s'.pipeline_index →
        pyIndex (stepOrder w) j = some sid → pyGet s'.step_status sid = some "completed") ∧
      ((fuel : Int) + s.pipeline_index ≥ (w.pipelineSteps.length : Int) →
        (s'.pipeline_index + 1 ≥ (w.pipelineSteps.length : Int) ∨
         ∃ nstep nhd, pyIndex (stepOrder w) (s'.pipeline_index + 1) = some nstep.id ∧
           stepById w nstep.id = some nstep ∧
           pyGet (engineComponents env) nstep.component = some nhd ∧
           nhd.requires_user_input = true)) := by
  intro fuel
  induction fuel with
  | zero =>
      intro s s' h h0
      simp only [execute_autonomous_steps] at h
      injection h with h
      subst h
      refine ⟨le_refl _, rfl, rfl, fun x => Or.inl rfl, ?_, ?_⟩
      · intro j sid hj1 hj2 _
        omega
      · intro hfuel
        left
        omega
  | succ fuel ih =>
      intro s s' h h0
      unfold execute_autonomous_steps at h
      dsimp only [] at h
      by_cases hend : s.pipeline_index + 1 ≥ (w.pipelineSteps.length : Int)
      · rw [if_pos hend] at h
        injection h with h
        subst h
        refine ⟨le_refl _, rfl, rfl, fun x => Or.inl rfl, ?_, ?_⟩
        · intro j sid hj1 hj2 _
          omega
        · intro _
          left
          exact hend
      · rw [if_neg hend] at h
        have hnn : (0 : Int) ≤ s.pipeline_index + 1 := by omega
        have hlt : s.pipeline_index + 1 < (w.pipelineSteps.length : Int) := by omega
        have hlen : (stepOrder w).length = w.pipelineSteps.length := by
          simp [stepOrder]
        obtain ⟨sid, hsid, _⟩ := pyIndex_getElem (stepOrder w) (s.pipeline_index + 1) hnn
          (by rw [hlen]; exact hlt)
        rw [hsid] at h
        dsimp only [] at h
        obtain ⟨step, hby, hbid⟩ := stepById_of_mem w hnodup sid
          (by
            rw [pyIndex_nonneg _ _ hnn] at hsid
            exact List.getElem?_mem hsid)
        rw [hby] at h
        dsimp only [] at h
        split at h
        · exact absurd h (by simp)
        · rename_i nhd hcomp
          split at h
          · rename_i hreq
            injection h with h
            subst h
            refine ⟨le_refl _, rfl, rfl, fun x => Or.inl rfl, ?_, ?_⟩
            · intro j sid' hj1 hj2 _
              omega
            · intro _
              right
              refine ⟨step, nhd, ?_, ?_, hcomp, hreq⟩
              · rw [hbid]
                exact hsid
              · rw [hbid]
                exact hby
          · rename_i hreq
            split at h
            · exact absurd h (by simp)
            · rename_i s1 hexec
              obtain ⟨he1, he2, he3, he4, he5⟩ :=
                execute_step_ok env w s step nhd [] none s1 hexec
              obtain ⟨hio, hiD⟩ := stepIndexD_of_pyIndex w hnodup (s.pipeline_index + 1) sid
                hnn hsid
              have hs1idx : s1.pipeline_index = s.pipeline_index + 1 := by
                rw [he1, hbid, hiD]
              obtain ⟨ha, hb, hc, hd', he, hf⟩ := ih s1 s' h (by omega)
              refine ⟨by omega, by rw [hb, he4], by rw [hc, he5], ?_, ?_, ?_⟩
              · intro x
                rcases hd' x with hx | hx
                · rw [hx]
                  by_cases hxid : x = step.id
                  · right
                    rw [hxid]
                    exact he2
                  · left
                    exact he3 x hxid
                · right
                  exact hx
              · intro j sid' hj1 hj2 hpy
                by_cases hj : j = s.pipeline_index + 1
                · have hsid' : sid' = sid := by
                    rw [hj] at hpy
                    rw [hpy] at hsid
                    injection hsid
                  subst hsid'
                  rcases hd' sid' with hx | hx
                  · rw [hx, ← hbid]
                    exact he2
                  · exact hx
                · exact he j sid' (by omega) hj2 hpy
              · intro hfuel
                apply hf
                omega

theorem execute_autonomous_steps_err (env : Env) (w : WorkflowYaml)
    (hnodup : (stepOrder w).Nodup) :
    ∀ (fuel : Nat) (s : WorkflowSession) (f : EngineFailure),
      execute_autonomous_steps env w fuel s = Except.error f →
      -1 ≤ s.pipeline_index →
      s.pipeline_index ≤ f.sess.pipeline_index ∧
      (∀ a, f.atStep = some a →
        ∃ k : Int, stepIndexOf w a = some k ∧ f.sess.pipeline_index < k) := by
  intro fuel
  induction fuel with
  | zero =>
      intro s f h _
      simp [execute_autonomous_steps] at h
  | succ fuel ih =>
      intro s f h h0
      unfold execute_autonomous_steps at h
      dsimp only [] at h
      by_cases hend : s.pipeline_index + 1 ≥ (w.pipelineSteps.length : Int)
      · rw [if_pos hend] at h
        exact absurd h (by simp)
      · rw [if_neg hend] at h
        have hnn : (0 : Int) ≤ s.pipeline_index + 1 := by omega
        have hlt : s.pipeline_index + 1 < (w.pipelineSteps.length : Int) := by omega
        have hlen : (stepOrder w).length = w.pipelineSteps.length := by
          simp [stepOrder]
        obtain ⟨sid, hsid, _⟩ := pyIndex_getElem (stepOrder w) (s.pipeline_index + 1) hnn
          (by rw [hlen]; exact hlt)
        rw [hsid] at h
        dsimp only [] at h
        obtain ⟨step, hby, hbid⟩ := stepById_of_mem w hnodup sid
          (by
            rw [pyIndex_nonneg _ _ hnn] at hsid
            exact List.getElem?_mem hsid)
        rw [hby] at h
        dsimp only [] at h
        obtain ⟨hio, hiD⟩ := stepIndexD_of_pyIndex w hnodup (s.pipeline_index + 1) sid
          hnn hsid
        split at h
        · rename_i hcomp
          injection h with h
          subst h
          refine ⟨le_refl _, ?_⟩
          intro a ha
          injection ha with ha
          subst ha
          refine ⟨s.pipeline_index + 1, ?_, by show s.pipeline_index < s.pipeline_index + 1; omega⟩
          rw [hbid]
          exact hio
        · rename_i nhd hcomp
          split at h
          · exact absurd h (by simp)
          · split at h
            · rename_i f2 hexec
              injection h with h
              subst h
              obtain ⟨hf1, hf2, _, _⟩ := execute_step_err env w s step nhd [] none _ hexec
              refine ⟨by rw [hf2], ?_⟩
              intro a ha
              rw [hf1] at ha
              injection ha with ha
              subst ha
              refine ⟨s.pipeline_index + 1, ?_, by rw [hf2]; omega⟩
              rw [hbid]
              exact hio
            · rename_i s1 hexec
              obtain ⟨he1, _, _, _, _⟩ := execute_step_ok env w s step nhd [] none s1 hexec
              have hs1idx : s1.pipeline_index = s.pipeline_index + 1 := by
                rw [he1, hbid, hiD]
              obtain ⟨ha, hb⟩ := ih s1 f h (by omega)
              exact ⟨by omega, hb⟩

theorem submit_step_ok_inversion (env : Env) (w : WorkflowYaml) (store : SessionStore)
    (sid stepId : String) (payload : PyDict Value) (file : Option UploadFile)
    (sess : WorkflowSession) (saved : WorkflowSession) (store' : SessionStore)
    (hload : pyGet store sid = some sess)
    (h : submit_step env w store sid stepId payload file = (SubmitOutcome.ok saved, store')) :
    ∃ step hd s1 s2,
      stepById w stepId = some step ∧
      pyGet (engineComponents env) step.component = some hd ∧
      execute_step env w
        { sess with
          status := "processing",
          step_status := pySet sess.step_status stepId "running",
          last_error := none, updated_at := env.now } step hd payload file = Except.ok s1 ∧
      execute_autonomous_steps env w (w.pipelineSteps.length + 2) s1 = Except.ok s2 ∧
      saved = { update_session_status env w s2 with updated_at := env.now } ∧
      store' = pySet store sid saved := by
  unfold submit_step at h
  rw [hload] at h
  dsimp only [] at h
  split at h
  · exact absurd (congrArg Prod.fst h) (by simp)
  · split at h
    · exact absurd (congrArg Prod.fst h) (by simp)
    · rename_i step hstep
      split at h
      · exact absurd (congrArg Prod.fst h) (by simp)
      · rename_i hd hcomp
        rcases hex : execute_step env w
            { sess with
              status := "processing",
              step_status := pySet sess.step_status stepId "running",
              last_error := none, updated_at := env.now } step hd payload file with f | s1
        · rw [hex] at h
          dsimp only [] at h
          exact absurd (congrArg Prod.fst h) (by simp)
        · rw [hex] at h
          dsimp only [] at h
          rcases hloop : execute_autonomous_steps env w (w.pipelineSteps.length + 2) s1
            with f | s2
          · rw [hloop] at h
            dsimp only [] at h
            exact absurd (congrArg Prod.fst h) (by simp)
          · rw [hloop] at h
            dsimp only [] at h
            have h1 := congrArg Prod.fst h
            have h2 := congrArg Prod.snd h
            dsimp only [] at h1 h2
            injection h1 with h1
            exact ⟨step, hd, s1, s2, hstep, hcomp, hex, hloop, h1.symm, by rw [← h2, h1]⟩

theorem submit_step_failed_inversion (env : Env) (w : WorkflowYaml) (store : SessionStore)
    (sid stepId : String) (payload : PyDict Value) (file : Option UploadFile)
    (sess : WorkflowSession) (atStep : Option String) (msg : String)
    (saved : WorkflowSession) (store' : SessionStore)
    (hload : pyGet store sid = some sess)
    (h : submit_step env w store sid stepId payload file =
      (SubmitOutcome.failed atStep msg saved, store')) :
    ∃ step hd f,
      stepById w stepId = some step ∧
      pyGet (engineComponents env) step.component = some hd ∧
      (execute_step env w
          { sess with
            status := "processing",
            step_status := pySet sess.step_status stepId "running",
            last_error := none, updated_at := env.now } step hd payload file =
            Except.error f ∨
        ∃ s1, execute_step env w
            { sess with
              status := "processing",
              step_status := pySet sess.step_status stepId "running",
              last_error := none, updated_at := env.now } step hd payload file =
              Except.ok s1 ∧
          execute_autonomous_steps env w (w.pipelineSteps.length + 2) s1 = Except.error f) ∧
      atStep = f.atStep ∧ msg = f.msg ∧
      saved = { f.sess with
        step_status := pySet f.sess.step_status stepId "error",
        status := "awaiting_input",
        last_error := some f.msg, updated_at := env.now } ∧
      store' = pySet store sid saved := by
  unfold submit_step at h
  rw [hload] at h
  dsimp only [] at h
  split at h
  · exact absurd (congrArg Prod.fst h) (by simp)
  · split at h
    · exact absurd (congrArg Prod.fst h) (by simp)
    · rename_i step hstep
      split at h
      · exact absurd (congrArg Prod.fst h) (by simp)
      · rename_i hd hcomp
        rcases hex : execute_step env w
            { sess with
              status := "processing",
              step_status := pySet sess.step_status stepId "running",
              last_error := none, updated_at := env.now } step hd payload file with f | s1
        · rw [hex] at h
          dsimp only [] at h
          have h1 := congrArg Prod.fst h
          have h2 := congrArg Prod.snd h
          dsimp only [] at h1 h2
          injection h1 with ha hm hs
          exact ⟨step, hd, f, hstep, hcomp, Or.inl hex, ha.symm, hm.symm, hs.symm,
            by rw [← h2, hs]⟩
        · rw [hex] at h
          dsimp only [] at h
          rcases hloop : execute_autonomous_steps env w (w.pipelineSteps.length + 2) s1
            with f | s2
          · rw [hloop] at h
            dsimp only [] at h
            have h1 := congrArg Prod.fst h
            have h2 := congrArg Prod.snd h
            dsimp only [] at h1 h2
            injection h1 with ha hm hs
            exact ⟨step, hd, f, hstep, hcomp, Or.inr ⟨s1, hex, hloop⟩, ha.symm, hm.symm,
              hs.symm, by rw [← h2, hs]⟩
          · rw [hloop] at h
            dsimp only [] at h
            exact absurd (congrArg Prod.fst h) (by simp)

theorem submit_step_rejected_store (env : Env) (w : WorkflowYaml) (store : SessionStore)
    (sid stepId : String) (payload : PyDict Value) (file : Option UploadFile)
    (msg : String)
    (h : (submit_step env w store sid stepId payload file).1 = SubmitOutcome.rejected msg) :
    (submit_step env w store sid stepId payload file).2 = store := by
  rcases hsub : submit_step env w store sid stepId payload file with ⟨out, st2⟩
  rw [hsub] at h
  dsimp only [] at h
  subst h
  dsimp only []
  unfold submit_step at hsub
  rcases hload : pyGet store sid with _ | sess <;> rw [hload] at hsub
  · exact (congrArg Prod.snd hsub).symm
  · dsimp only [] at hsub
    split at hsub
    · exact (congrArg Prod.snd hsub).symm
    · split at hsub
      · exact (congrArg Prod.snd hsub).symm
      · rename_i step hstep
        split at hsub
        · exact (congrArg Prod.snd hsub).symm
        · rename_i hd hcomp
          split at hsub
          · have := congrArg Prod.fst hsub
            simp at this
          · have := congrArg Prod.fst hsub
            simp at this

theorem update_session_status_fields (env : Env) (w : WorkflowYaml) (s : WorkflowSession) :
    (update_session_status env w s).pipeline_index = s.pipeline_index ∧
    (update_session_status env w s).step_status = s.step_status ∧
    (update_session_status env w s).last_error = s.last_error := by
  unfold update_session_status
  dsimp only []
  split
  · exact ⟨rfl, rfl, rfl⟩
  · split
    · exact ⟨rfl, rfl, rfl⟩
    · split <;> exact ⟨rfl, rfl, rfl⟩

theorem update_session_status_spec (env : Env) (w : WorkflowYaml) (s : WorkflowSession)
    (hne : s.last_error = none) :
    (next_user_step env w s.pipeline_index = none →
      (update_session_status env w s).status = "completed") ∧
    (∀ nstep, next_user_step env w s.pipeline_index = some nstep →
      (update_session_status env w s).status = "awaiting_input" ∧
      (∀ u, truthyStrParam nstep.params "ui_step" = some u →
        (update_session_status env w s).active_ui_step = some u)) := by
  unfold update_session_status
  rw [hne]
  dsimp only []
  rcases hnus : next_user_step env w s.pipeline_index with _ | nstep
  · refine ⟨fun _ => rfl, ?_⟩
    intro nstep hcontra
    cases hcontra
  · dsimp only []
    refine ⟨(fun hcontra => by cases hcontra), ?_⟩
    intro nstep' hsome
    injection hsome with hsome
    cases hsome
    rcases hts : truthyStrParam nstep.params "ui_step" with _ | u
    · exact ⟨rfl, (fun u hcontra => by cases hcontra)⟩
    · refine ⟨rfl, ?_⟩
      intro u' hu
      injection hu with hu
      cases hu
      rfl

/-- C1: after a successful submission, every pipeline step between the
submitted step and the final cursor is completed; the pipeline stops only at
end-of-pipeline or directly before a step whose handler requires user input;
the session becomes `completed` exactly when no user step remains after the
cursor, and otherwise becomes `awaiting_input` with the next user step's
bound ui step active. -/
theorem C1_autonomous_continuation (env : Env) (w : WorkflowYaml) (store : SessionStore)
    (sid stepId : String) (payload : PyDict Value) (file : Option UploadFile)
    (sess saved : WorkflowSession) (store' : SessionStore)
    (hnodup : (stepOrder w).Nodup)
    (hload : pyGet store sid = some sess)
    (hrun : submit_step env w store sid stepId payload file =
      (SubmitOutcome.ok saved, store')) :
    (∀ k : Int, stepIndexOf w stepId = some k →
      ∀ (j : Int) (sid' : String), k < j → j ≤ saved.pipeline_index →
        pyIndex (stepOrder w) j = some sid' →
        pyGet saved.step_status sid' = some "completed") ∧
    (saved.pipeline_index + 1 ≥ (w.pipelineSteps.length : Int) ∨
      ∃ nstep nhd, pyIndex (stepOrder w) (saved.pipeline_index + 1) = some nstep.id ∧
        stepById w nstep.id = some nstep ∧
        pyGet (engineComponents env) nstep.component = some nhd ∧
        nhd.requires_user_input = true) ∧
    (next_user_step env w saved.pipeline_index = none → saved.status = "completed") ∧
    (∀ nstep, next_user_step env w saved.pipeline_index = some nstep →
      saved.status = "awaiting_input" ∧
      ∀ u, truthyStrParam nstep.params "ui_step" = some u →
        saved.active_ui_step = some u) := by
  obtain ⟨step, hd, s1, s2, hstep, hcomp, hex, hloop, hsaved, hstore⟩ :=
    submit_step_ok_inversion env w store sid stepId payload file sess saved store' hload hrun
  have hids : step.id = stepId := stepById_id w stepId step hstep
  obtain ⟨n, hgetn, hion⟩ := stepIndexOf_of_stepById w stepId step hnodup hstep
  obtain ⟨he1, he2, he3, he4, he5⟩ := execute_step_ok env w _ step hd payload file s1 hex
  have hs1idx : s1.pipeline_index = (n : Int) := by
    rw [he1, hids, stepIndexD, hion]
    rfl
  have hs1err : s1.last_error = none := by
    rw [he4]
  obtain ⟨ha, hb, hc, hd', he, hf⟩ := execute_autonomous_steps_ok env w hnodup
    (w.pipelineSteps.length + 2) s1 s2 hloop (by rw [hs1idx]; exact_mod_cast Int.le.intro_sub _ rfl)
  have hs2err : s2.last_error = none := by rw [hb, hs1err]
  obtain ⟨hu1, hu2, hu3⟩ := update_session_status_fields env w s2
  have hsavedidx : saved.pipeline_index = s2.pipeline_index := by
    rw [hsaved]
    exact hu1
  have hsavedst : saved.step_status = s2.step_status := by
    rw [hsaved]
    exact hu2
  obtain ⟨hspec1, hspec2⟩ := update_session_status_spec env w s2 hs2err
  refine ⟨?_, ?_, ?_, ?_⟩
  · intro k hk j sid' hkj hjle hpyj
    have hkn : k = (n : Int) := by
      rw [hk] at hion
      injection hion
    rw [hsavedst]
    by_cases hjn : j ≤ s1.pipeline_index
    · exfalso
      rw [hs1idx] at hjn
      omega
    · exact he j sid' (by omega) (by rw [← hsavedidx]; exact hjle) hpyj
  · rw [hsavedidx]
    apply hf
    rw [hs1idx]
    push_cast
    omega
  · intro hnone
    rw [hsaved]
    show (update_session_status env w s2).status = "completed"
    apply hspec1
    rw [← hsavedidx]
    exact hnone
  · intro nstep hsome
    have hsome' : next_user_step env w s2.pipeline_index = some nstep := by
      rw [← hsavedidx]
      exact hsome
    obtain ⟨hst, hui⟩ := hspec2 nstep hsome'
    refine ⟨?_, ?_⟩
    · rw [hsaved]
      exact hst
    · intro u hu
      rw [hsaved]
      show (update_session_status env w s2).active_ui_step = some u
      exact hui u hu

/-- C3: when a next interactive step is expected, submitting any other step id
is rejected with the `ValueError` message, and the store — hence the stored
session's status, cursor, step-status map and context — is completely
unchanged. -/
theorem C3_wrong_step_rejected_unchanged (env : Env) (w : WorkflowYaml)
    (store : SessionStore) (sid stepId : String) (payload : PyDict Value)
    (file : Option UploadFile) (sess : WorkflowSession)
    (hload : pyGet store sid = some sess)
    (hexp : ∃ e, next_user_step env w sess.pipeline_index = some e ∧ ¬ e.id = stepId) :
    submit_step env w store sid stepId payload file =
      (SubmitOutcome.rejected "想定されていないステップが実行されました。", store) := by
  obtain ⟨e, he, hne⟩ := hexp
  unfold submit_step
  rw [hload]
  dsimp only []
  rw [he]
  dsimp only []
  rw [if_pos (by simpa using hne)]

/-- Witness for C3: on a fresh `[A, B, D]` session the expected interactive
step is `A`; submitting `D` is rejected and the store is untouched. -/
theorem C3_wrong_step_rejected_unchanged_witness :
    pyGet (create_session demoEnv demoWfABD []).2 "sid" =
      some (create_session demoEnv demoWfABD []).1 ∧
    (∃ e, next_user_step demoEnv demoWfABD
        (create_session demoEnv demoWfABD []).1.pipeline_index = some e ∧ ¬ e.id = "D") ∧
    submit_step demoEnv demoWfABD (create_session demoEnv demoWfABD []).2 "sid" "D" []
        (some demoFile) =
      (SubmitOutcome.rejected "想定されていないステップが実行されました。",
        (create_session demoEnv demoWfABD []).2) := by
  refine ⟨rfl, ⟨demoStepA, rfl, by decide⟩, ?_⟩
  exact C3_wrong_step_rejected_unchanged demoEnv demoWfABD
    (create_session demoEnv demoWfABD []).2 "sid" "D" [] (some demoFile)
    (create_session demoEnv demoWfABD []).1 rfl ⟨demoStepA, rfl, by decide⟩

/-- C6 counterexample: submitting the file-upload step with no file attached
is recorded on the session as a failure — the step status becomes `error` and
`last_error` is populated — contradicting the claim that the absence of the
file is never recorded as a step failure or error (and the raised error is a
plain `ValueError`, not a `MissingInputError`). -/
theorem C6_counterexample_missing_file_recorded_as_error :
    (submit_step demoEnv demoWfA (create_session demoEnv demoWfA []).2 "sid" "A" [] none).1 =
      SubmitOutcome.failed (some "A") "ファイルが添付されていません。"
        (outcomeSaved (submit_step demoEnv demoWfA
          (create_session demoEnv demoWfA []).2 "sid" "A" [] none).1) ∧
    pyGet (outcomeSaved (submit_step demoEnv demoWfA
      (create_session demoEnv demoWfA []).2 "sid" "A" [] none).1).step_status "A" =
      some "error" ∧
    (outcomeSaved (submit_step demoEnv demoWfA
      (create_session demoEnv demoWfA []).2 "sid" "A" [] none).1).last_error =
      some "ファイルが添付されていません。" ∧
    (outcomeSaved (submit_step demoEnv demoWfA
      (create_session demoEnv demoWfA []).2 "sid" "A" [] none).1).status =
      "awaiting_input" := by
  exact ⟨rfl, rfl, rfl, rfl⟩

/-- C6 as amended: with no file attached `file_uploader` raises a plain
`ValueError` (not a `MissingInputError`); the session does return to
awaiting-input so the client may retry, but — per the counterexample — the
engine records the failure on the step and the session like any other
handler error. -/
theorem C6_no_file_raises_value_error (env : Env) (wf : WorkflowYaml)
    (sess : WorkflowSession) (step : PipelineStep) (payload : PyDict Value) :
    file_uploader_execute env wf sess step payload none =
      Except.error "ファイルが添付されていません。" := rfl

/-- C2 counterexample: pipeline `[A, B]` where `B` (non-interactive) raises.
Submitting `A` lets `A` complete, then autonomous continuation fails inside
`B`; the engine marks the *submitted* step `A` as `error` while the step that
was actually executing, `B`, keeps status `running` — contradicting the claim
that the currently executing step is the one marked `error`. -/
theorem C2_counterexample_submitted_step_marked_error :
    (submit_step demoEnv demoWfABbad (create_session demoEnv demoWfABbad []).2
        "sid" "A" [] (some demoFile)).1 =
      SubmitOutcome.failed (some "B")
        "for_each コンポーネントには items_path, output_path, template の指定が必要です。"
        (outcomeSaved (submit_step demoEnv demoWfABbad
          (create_session demoEnv demoWfABbad []).2 "sid" "A" [] (some demoFile)).1) ∧
    pyGet (outcomeSaved (submit_step demoEnv demoWfABbad
      (create_session demoEnv demoWfABbad []).2 "sid" "A" [] (some demoFile)).1).step_status
      "B" = some "running" ∧
    pyGet (outcomeSaved (submit_step demoEnv demoWfABbad
      (create_session demoEnv demoWfABbad []).2 "sid" "A" [] (some demoFile)).1).step_status
      "A" = some "error" := by
  exact ⟨rfl, rfl, rfl⟩

/-- C2 as amended: a handler error during a submission marks the *submitted*
step (not necessarily the step that was executing) as `error`, sets the
session to `awaiting_input` with `last_error` populated, and persists that
state; the cursor never advances past the step whose execution raised, and
when the failure happened in the submitted step itself the cursor is exactly
where it started, so an identical resubmission retries that step. -/
theorem C2_error_recorded_and_cursor_not_past_failure (env : Env) (w : WorkflowYaml)
    (store : SessionStore) (sid stepId : String) (payload : PyDict Value)
    (file : Option UploadFile) (sess : WorkflowSession) (atStep : Option String)
    (msg : String) (saved : WorkflowSession) (store' : SessionStore)
    (hnodup : (stepOrder w).Nodup)
    (hload : pyGet store sid = some sess)
    (hrun : submit_step env w store sid stepId payload file =
      (SubmitOutcome.failed atStep msg saved, store')) :
    saved.status = "awaiting_input" ∧
    saved.last_error = some msg ∧
    pyGet saved.step_status stepId = some "error" ∧
    store' = pySet store sid saved ∧
    (∀ (a : String) (k : Int), atStep = some a → stepIndexOf w a = some k →
      saved.pipeline_index < k ∨ saved.pipeline_index = sess.pipeline_index) ∧
    (atStep = some stepId → saved.pipeline_index = sess.pipeline_index) := by
  obtain ⟨step, hdl, f, hstep, hcomp, hcase, hat, hmsg, hsaved, hstore⟩ :=
    submit_step_failed_inversion env w store sid stepId payload file sess atStep msg
      saved store' hload hrun
  have hids : step.id = stepId := stepById_id w stepId step hstep
  obtain ⟨n, hgetn, hion⟩ := stepIndexOf_of_stepById w stepId step hnodup hstep
  have hsavedidx : saved.pipeline_index = f.sess.pipeline_index := by
    rw [hsaved]
  refine ⟨by rw [hsaved], by rw [hsaved, hmsg], ?_, hstore, ?_, ?_⟩
  · rw [hsaved]
    exact pyGet_pySet_self _ _ _
  · intro a k hat' hk
    rcases hcase with hex | ⟨s1, hex, hloop⟩
    · right
      obtain ⟨f1, f2, _, _⟩ := execute_step_err env w _ step hdl payload file f hex
      rw [hsavedidx, f2]
    · left
      obtain ⟨he1, _, _, _, _⟩ := execute_step_ok env w _ step hdl payload file s1 hex
      have hs1idx : s1.pipeline_index = (n : Int) := by
        rw [he1, hids, stepIndexD, hion]
        rfl
      obtain ⟨la, lb⟩ := execute_autonomous_steps_err env w hnodup
        (w.pipelineSteps.length + 2) s1 f hloop (by rw [hs1idx]; exact_mod_cast Int.le.intro_sub _ rfl)
      obtain ⟨k', hk', hlt⟩ := lb a (by rw [← hat]; exact hat')
      have : k' = k := by
        rw [hk'] at hk
        injection hk
      rw [hsavedidx]
      omega
  · intro hat'
    rcases hcase with hex | ⟨s1, hex, hloop⟩
    · obtain ⟨f1, f2, _, _⟩ := execute_step_err env w _ step hdl payload file f hex
      rw [hsavedidx, f2]
    · exfalso
      obtain ⟨he1, _, _, _, _⟩ := execute_step_ok env w _ step hdl payload file s1 hex
      have hs1idx : s1.pipeline_index = (n : Int) := by
        rw [he1, hids, stepIndexD, hion]
        rfl
      obtain ⟨la, lb⟩ := execute_autonomous_steps_err env w hnodup
        (w.pipelineSteps.length + 2) s1 f hloop (by rw [hs1idx]; exact_mod_cast Int.le.intro_sub _ rfl)
      obtain ⟨k', hk', hlt⟩ := lb stepId (by rw [← hat]; exact hat')
      rw [hion] at hk'
      injection hk' with hk'
      rw [hs1idx] at la
      omega

/-- Witness for the amended C2 at the concrete failing run. -/
theorem C2_error_recorded_witness :
    (stepOrder demoWfABbad).Nodup ∧
    pyGet (create_session demoEnv demoWfABbad []).2 "sid" =
      some (create_session demoEnv demoWfABbad []).1 ∧
    submit_step demoEnv demoWfABbad (create_session demoEnv demoWfABbad []).2
        "sid" "A" [] (some demoFile) =
      (SubmitOutcome.failed (some "B")
        "for_each コンポーネントには items_path, output_path, template の指定が必要です。"
        (outcomeSaved (submit_step demoEnv demoWfABbad
          (create_session demoEnv demoWfABbad []).2 "sid" "A" [] (some demoFile)).1),
        (submit_step demoEnv demoWfABbad (create_session demoEnv demoWfABbad []).2
          "sid" "A" [] (some demoFile)).2) ∧
    ((outcomeSaved (submit_step demoEnv demoWfABbad
        (create_session demoEnv demoWfABbad []).2 "sid" "A" [] (some demoFile)).1).status =
        "awaiting_input" ∧
      (outcomeSaved (submit_step demoEnv demoWfABbad
        (create_session demoEnv demoWfABbad []).2 "sid" "A" [] (some demoFile)).1).last_error =
        some "for_each コンポーネントには items_path, output_path, template の指定が必要です。" ∧
      pyGet (outcomeSaved (submit_step demoEnv demoWfABbad
        (create_session demoEnv demoWfABbad []).2 "sid" "A" [] (some demoFile)).1).step_status
        "A" = some "error" ∧
      (submit_step demoEnv demoWfABbad (create_session demoEnv demoWfABbad []).2
        "sid" "A" [] (some demoFile)).2 =
        pySet (create_session demoEnv demoWfABbad []).2 "sid"
          (outcomeSaved (submit_step demoEnv demoWfABbad
            (create_session demoEnv demoWfABbad []).2 "sid" "A" [] (some demoFile)).1) ∧
      (∀ (a : String) (k : Int),
        (some "B" : Option String) = some a → stepIndexOf demoWfABbad a = some k →
        (outcomeSaved (submit_step demoEnv demoWfABbad
          (create_session demoEnv demoWfABbad []).2 "sid" "A" [] (some demoFile)).1).pipeline_index
            < k ∨
        (outcomeSaved (submit_step demoEnv demoWfABbad
          (create_session demoEnv demoWfABbad []).2 "sid" "A" [] (some demoFile)).1).pipeline_index
            = (create_session demoEnv demoWfABbad []).1.pipeline_index) ∧
      ((some "B" : Option String) = some "A" →
        (outcomeSaved (submit_step demoEnv demoWfABbad
          (create_session demoEnv demoWfABbad []).2 "sid" "A" [] (some demoFile)).1).pipeline_index
            = (create_session demoEnv demoWfABbad []).1.pipeline_index)) := by
  refine ⟨by decide, rfl, rfl, ?_⟩
  exact C2_error_recorded_and_cursor_not_past_failure demoEnv demoWfABbad
    (create_session demoEnv demoWfABbad []).2 "sid" "A" [] (some demoFile)
    (create_session demoEnv demoWfABbad []).1 (some "B")
    "for_each コンポーネントには items_path, output_path, template の指定が必要です。"
    (outcomeSaved (submit_step demoEnv demoWfABbad
      (create_session demoEnv demoWfABbad []).2 "sid" "A" [] (some demoFile)).1)
    (submit_step demoEnv demoWfABbad (create_session demoEnv demoWfABbad []).2
      "sid" "A" [] (some demoFile)).2
    (by decide) rfl rfl

theorem stepIndexOf_nonneg (w : WorkflowYaml) (sid : String) (k : Int)
    (h : stepIndexOf w sid = some k) : 0 ≤ k := by
  have hmem := pyDictOf_subset _ _ (pyGet_mem _ _ _ h)
  simp only [List.mem_map] at hmem
  obtain ⟨p, _, hp⟩ := hmem
  have hk : ((p.1 : Int)) = k := congrArg Prod.snd hp
  rw [← hk]
  exact Int.ofNat_nonneg p.1

set_option maxHeartbeats 2000000 in
/-- C4 counterexample: after the `[A, B, C]` pipeline has completed (cursor 2,
status `completed`), resubmitting the non-interactive, non-UI step `B` is
accepted; `B` re-executes and then `C` fails, and the persisted cursor is 1 —
strictly smaller than before — although the call did not target an earlier
*UI* step, contradicting both the monotonicity clause and the claim that a
completed session is terminal. -/
theorem C4_counterexample_cursor_decreases :
    (submit_step demoEnv demoWfABC2 (create_session demoEnv demoWfABC2 []).2
      "sid" "A" [] (some demoFile)).2 = c4Store1 ∧
    c4Entry.status = "completed" ∧
    c4Entry.pipeline_index = 2 ∧
    ((pyGet (engineComponents demoEnvFail2) "call_workflow").map
      (fun h => h.requires_user_input)) = some false ∧
    pyGet (submit_step demoEnvFail2 demoWfABC2 c4Store1 "sid" "B" [] none).2 "sid" =
      some (outcomeSaved
        (submit_step demoEnvFail2 demoWfABC2 c4Store1 "sid" "B" [] none).1) ∧
    (outcomeSaved (submit_step demoEnvFail2 demoWfABC2 c4Store1
      "sid" "B" [] none).1).pipeline_index = 1 := by
  exact ⟨rfl, rfl, rfl, rfl, rfl, rfl⟩

/-- C4 as amended: across submissions that target a step strictly beyond the
cursor — which includes every submission of the currently expected
interactive step — the persisted cursor never decreases (rejected calls leave
the store untouched).  A completed session is not terminal: any declared step
may be resubmitted (claim C10), and only such backward-targeting calls can
move the cursor back. -/
theorem C4_cursor_monotonic_beyond_cursor (env : Env) (w : WorkflowYaml)
    (store : SessionStore) (sid stepId : String) (payload : PyDict Value)
    (file : Option UploadFile) (sess : WorkflowSession) (k : Int)
    (hnodup : (stepOrder w).Nodup)
    (hload : pyGet store sid = some sess)
    (hk : stepIndexOf w stepId = some k)
    (hbeyond : sess.pipeline_index < k) :
    ∀ s', pyGet (submit_step env w store sid stepId payload file).2 sid = some s' →
      sess.pipeline_index ≤ s'.pipeline_index := by
  intro s' hs'
  rcases hpair : submit_step env w store sid stepId payload file with ⟨out, st2⟩
  rw [hpair] at hs'
  dsimp only [] at hs'
  cases out with
  | rejected m =>
      have hst : st2 = store := by
        have h1 := submit_step_rejected_store env w store sid stepId payload file m
          (by rw [hpair])
        rw [hpair] at h1
        exact h1
      rw [hst, hload] at hs'
      injection hs' with hs'
      rw [← hs']
  | ok saved =>
      obtain ⟨step, hd, s1, s2, hstep, hcomp, hex, hloop, hsaved, hstore⟩ :=
        submit_step_ok_inversion env w store sid stepId payload file sess saved st2
          hload hpair
      have hids : step.id = stepId := stepById_id w stepId step hstep
      rw [hstore, pyGet_pySet_self] at hs'
      injection hs' with hs'
      subst hs'
      obtain ⟨he1, _, _, _, _⟩ := execute_step_ok env w _ step hd payload file s1 hex
      have hs1idx : s1.pipeline_index = k := by
        rw [he1, hids, stepIndexD, hk]
        rfl
      have hknn : 0 ≤ k := stepIndexOf_nonneg w stepId k hk
      obtain ⟨ha, _, _, _, _, _⟩ := execute_autonomous_steps_ok env w hnodup
        (w.pipelineSteps.length + 2) s1 s2 hloop (by omega)
      obtain ⟨hu1, _, _⟩ := update_session_status_fields env w s2
      have : saved.pipeline_index = s2.pipeline_index := by
        rw [hsaved]
        exact hu1
      omega
  | failed a m saved =>
      obtain ⟨step, hd, f, hstep, hcomp, hcase, hat, hmsg, hsaved, hstore⟩ :=
        submit_step_failed_inversion env w store sid stepId payload file sess a m saved st2
          hload hpair
      have hids : step.id = stepId := stepById_id w stepId step hstep
      rw [hstore, pyGet_pySet_self] at hs'
      injection hs' with hs'
      subst hs'
      have hsavedidx : saved.pipeline_index = f.sess.pipeline_index := by
        rw [hsaved]
      rcases hcase with hex | ⟨s1, hex, hloop⟩
      · obtain ⟨_, f2, _, _⟩ := execute_step_err env w _ step hd payload file f hex
        have : f.sess.pipeline_index = sess.pipeline_index := f2
        omega
      · obtain ⟨he1, _, _, _, _⟩ := execute_step_ok env w _ step hd payload file s1 hex
        have hs1idx : s1.pipeline_index = k := by
          rw [he1, hids, stepIndexD, hk]
          rfl
        have hknn : 0 ≤ k := stepIndexOf_nonneg w stepId k hk
        obtain ⟨la, _⟩ := execute_autonomous_steps_err env w hnodup
          (w.pipelineSteps.length + 2) s1 f hloop (by omega)
        omega

/-- Witness for the amended C4 on a fresh session submitting its first step. -/
theorem C4_cursor_monotonic_witness :
    (stepOrder demoWfABD).Nodup ∧
    pyGet (create_session demoEnv demoWfABD []).2 "sid" =
      some (create_session demoEnv demoWfABD []).1 ∧
    stepIndexOf demoWfABD "A" = some 0 ∧
    (create_session demoEnv demoWfABD []).1.pipeline_index < 0 ∧
    (∀ s', pyGet (submit_step demoEnv demoWfABD (create_session demoEnv demoWfABD []).2
        "sid" "A" [] (some demoFile)).2 "sid" = some s' →
      (create_session demoEnv demoWfABD []).1.pipeline_index ≤ s'.pipeline_index) := by
  exact ⟨by decide, rfl, rfl, by decide,
    C4_cursor_monotonic_beyond_cursor demoEnv demoWfABD
      (create_session demoEnv demoWfABD []).2 "sid" "A" [] (some demoFile)
      (create_session demoEnv demoWfABD []).1 0 (by decide) rfl rfl (by decide)⟩

theorem execute_step_run_err_status (w : WorkflowYaml) (s : WorkflowSession)
    (step : PipelineStep) (hd : ComponentHandler) (payload : PyDict Value)
    (file : Option UploadFile) (f : EngineFailure)
    (h : execute_step_run w s step hd payload file = Except.error f) :
    ∀ x, pyGet f.sess.step_status x = pyGet s.step_status x ∨
      pyGet f.sess.step_status x = some "running" := by
  unfold execute_step_run at h
  dsimp only [] at h
  split at h
  · rename_i e heq
    injection h with h
    subst h
    intro x
    by_cases hC : ¬ pyGet s.step_status step.id = some "running"
    · simp only [if_pos hC]
      by_cases hx : x = step.id
      · right
        rw [hx]
        exact pyGet_pySet_self _ _ _
      · left
        exact pyGet_pySet_other _ _ _ _ (fun hc => hx hc.symm)
    · simp only [if_neg hC]
      exact Or.inl trivial
  · exact absurd h (by simp)

theorem execute_step_err_status (env : Env) (w : WorkflowYaml) (s : WorkflowSession)
    (step : PipelineStep) (hd : ComponentHandler) (payload : PyDict Value)
    (file : Option UploadFile) (f : EngineFailure)
    (h : execute_step env w s step hd payload file = Except.error f) :
    ∀ x, pyGet f.sess.step_status x = pyGet s.step_status x ∨
      pyGet f.sess.step_status x = some "running" := by
  unfold execute_step at h
  split at h
  · split at h
    · exact execute_step_run_err_status w s step hd payload file f h
    · split at h
      · rename_i e heq
        injection h with h
        subst h
        exact fun x => Or.inl rfl
      · split at h
        · exact absurd h (by simp)
        · exact execute_step_run_err_status w s step hd payload file f h
  · exact execute_step_run_err_status w s step hd payload file f h

theorem execute_autonomous_steps_err_status (env : Env) (w : WorkflowYaml)
    (hnodup : (stepOrder w).Nodup) :
    ∀ (fuel : Nat) (s : WorkflowSession) (f : EngineFailure),
      execute_autonomous_steps env w fuel s = Except.error f →
      -1 ≤ s.pipeline_index →
      ∀ x, pyGet f.sess.step_status x = pyGet s.step_status x ∨
        pyGet f.sess.step_status x = some "completed" ∨
        pyGet f.sess.step_status x = some "running" := by
  intro fuel
  induction fuel with
  | zero =>
      intro s f h _
      simp [execute_autonomous_steps] at h
  | succ fuel ih =>
      intro s f h h0
      unfold execute_autonomous_steps at h
      dsimp only [] at h
      by_cases hend : s.pipeline_index + 1 ≥ (w.pipelineSteps.length : Int)
      · rw [if_pos hend] at h
        exact absurd h (by simp)
      · rw [if_neg hend] at h
        have hnn : (0 : Int) ≤ s.pipeline_index + 1 := by omega
        have hlt : s.pipeline_index + 1 < (w.pipelineSteps.length : Int) := by omega
        have hlen : (stepOrder w).length = w.pipelineSteps.length := by
          simp [stepOrder]
        obtain ⟨sid, hsid, _⟩ := pyIndex_getElem (stepOrder w) (s.pipeline_index + 1) hnn
          (by rw [hlen]; exact hlt)
        rw [hsid] at h
        dsimp only [] at h
        obtain ⟨step, hby, hbid⟩ := stepById_of_mem w hnodup sid
          (by
            rw [pyIndex_nonneg _ _ hnn] at hsid
            exact List.getElem?_mem hsid)
        rw [hby] at h
        dsimp only [] at h
        obtain ⟨hio, hiD⟩ := stepIndexD_of_pyIndex w hnodup (s.pipeline_index + 1) sid
          hnn hsid
        split at h
        · rename_i hcomp
          injection h with h
          subst h
          exact fun x => Or.inl rfl
        · rename_i nhd hcomp
          split at h
          · exact absurd h (by simp)
          · split at h
            · rename_i f2 hexec
              injection h with h
              subst h
              intro x
              rcases execute_step_err_status env w s step nhd [] none _ hexec x with hx | hx
              · exact Or.inl hx
              · exact Or.inr (Or.inr hx)
            · rename_i s1 hexec
              obtain ⟨he1, he2, he3, _, _⟩ := execute_step_ok env w s step nhd [] none s1 hexec
              have hs1idx : s1.pipeline_index = s.pipeline_index + 1 := by
                rw [he1, hbid, hiD]
              intro x
              rcases ih s1 f h (by omega) x with hx | hx | hx
              · rw [hx]
                by_cases hxid : x = step.id
                · right
                  left
                  rw [hxid]
                  exact he2
                · left
                  exact he3 x hxid
              · exact Or.inr (Or.inl hx)
              · exact Or.inr (Or.inr hx)

set_option maxHeartbeats 2000000 in
/-- C5 counterexample: in the `[A, B, D]` pipeline (with `A` and `D` UI-facing
file uploads), after `A` and `D` were submitted every step is `completed`;
resubmitting the earlier UI step `A` is accepted, yet the statuses of the
later steps `B` and `D` stay `completed` — nothing is ever reset to
`pending`. -/
theorem C5_counterexample_no_reset_after_resubmit :
    (submit_step demoEnv demoWfABD (create_session demoEnv demoWfABD []).2
      "sid" "A" [] (some demoFile)).2 = [("sid", c5Mid)] ∧
    (submit_step demoEnv demoWfABD [("sid", c5Mid)] "sid" "D" [] (some demoFile)).2 =
      [("sid", c5Done)] ∧
    ((pyGet (engineComponents demoEnv) "file_uploader").map
      (fun h => h.requires_user_input)) = some true ∧
    pyGet c5Done.step_status "B" = some "completed" ∧
    pyGet c5Done.step_status "D" = some "completed" ∧
    (submit_step demoEnv demoWfABD [("sid", c5Done)] "sid" "A" [] (some demoFile)).1 =
      SubmitOutcome.ok (outcomeSaved
        (submit_step demoEnv demoWfABD [("sid", c5Done)] "sid" "A" [] (some demoFile)).1) ∧
    pyGet (outcomeSaved (submit_step demoEnv demoWfABD [("sid", c5Done)]
      "sid" "A" [] (some demoFile)).1).step_status "B" = some "completed" ∧
    pyGet (outcomeSaved (submit_step demoEnv demoWfABD [("sid", c5Done)]
      "sid" "A" [] (some demoFile)).1).step_status "D" = some "completed" := by
  exact ⟨rfl, rfl, rfl, rfl, rfl, rfl, rfl, rfl⟩

/-- C5 as amended: `submit_step` never resets any step's status to `pending`
— no reset-to-pending logic exists.  A step is `pending` in the stored
session only if it already was `pending` before the call; resubmitting an
earlier UI step re-runs the downstream non-interactive steps (overwriting
their outputs) but leaves every untouched status as it was. -/
theorem C5_no_step_reset_to_pending (env : Env) (w : WorkflowYaml)
    (store : SessionStore) (sid stepId : String) (payload : PyDict Value)
    (file : Option UploadFile) (sess : WorkflowSession)
    (hnodup : (stepOrder w).Nodup)
    (hload : pyGet store sid = some sess) :
    ∀ x s', pyGet (submit_step env w store sid stepId payload file).2 sid = some s' →
      pyGet s'.step_status x = some "pending" →
      pyGet sess.step_status x = some "pending" := by
  intro x s' hs' hpend
  rcases hpair : submit_step env w store sid stepId payload file with ⟨out, st2⟩
  rw [hpair] at hs'
  dsimp only [] at hs'
  cases out with
  | rejected m =>
      have hst : st2 = store := by
        have h1 := submit_step_rejected_store env w store sid stepId payload file m
          (by rw [hpair])
        rw [hpair] at h1
        exact h1
      rw [hst, hload] at hs'
      injection hs' with hs'
      rw [← hs'] at hpend
      exact hpend
  | ok saved =>
      obtain ⟨step, hd, s1, s2, hstep, hcomp, hex, hloop, hsaved, hstore⟩ :=
        submit_step_ok_inversion env w store sid stepId payload file sess saved st2
          hload hpair
      rw [hstore, pyGet_pySet_self] at hs'
      injection hs' with hs'
      subst hs'
      have hss : saved.step_status = s2.step_status := by
        rw [hsaved]
        exact (update_session_status_fields env w s2).2.1
      rw [hss] at hpend
      obtain ⟨he1, he2, he3, _, _⟩ := execute_step_ok env w _ step hd payload file s1 hex
      have hids : step.id = stepId := stepById_id w stepId step hstep
      obtain ⟨n, hn, hio⟩ := stepIndexOf_of_stepById w stepId step hnodup hstep
      have hs1nn : -1 ≤ s1.pipeline_index := by
        rw [he1, hids, stepIndexD, hio, Option.getD_some]
        omega
      obtain ⟨_, _, _, hd4, _, _⟩ := execute_autonomous_steps_ok env w hnodup
        (w.pipelineSteps.length + 2) s1 s2 hloop hs1nn
      rcases hd4 x with hx | hx
      · rw [hx] at hpend
        by_cases hxid : x = step.id
        · rw [hxid, he2] at hpend
          simp at hpend
        · rw [he3 x hxid] at hpend
          dsimp only [] at hpend
          by_cases hxs : x = stepId
          · rw [hxs, pyGet_pySet_self] at hpend
            simp at hpend
          · rw [pyGet_pySet_other _ _ _ _ (fun hc => hxs hc.symm)] at hpend
            exact hpend
      · rw [hx] at hpend
        simp at hpend
  | failed a m saved =>
      obtain ⟨step, hd, f, hstep, hcomp, hcase, hat, hmsg, hsaved, hstore⟩ :=
        submit_step_failed_inversion env w store sid stepId payload file sess a m saved st2
          hload hpair
      rw [hstore, pyGet_pySet_self] at hs'
      injection hs' with hs'
      subst hs'
      rw [hsaved] at hpend
      dsimp only [] at hpend
      by_cases hxs : x = stepId
      · rw [hxs, pyGet_pySet_self] at hpend
        simp at hpend
      · rw [pyGet_pySet_other _ _ _ _ (fun hc => hxs hc.symm)] at hpend
        have hids : step.id = stepId := stepById_id w stepId step hstep
        rcases hcase with hex | ⟨s1, hex, hloop⟩
        · rcases execute_step_err_status env w _ step hd payload file f hex x with hx | hx
          · rw [hx] at hpend
            dsimp only [] at hpend
            rw [pyGet_pySet_other _ _ _ _ (fun hc => hxs hc.symm)] at hpend
            exact hpend
          · rw [hx] at hpend
            simp at hpend
        · obtain ⟨he1, he2, he3, _, _⟩ := execute_step_ok env w _ step hd payload file s1 hex
          obtain ⟨n, hn, hio⟩ := stepIndexOf_of_stepById w stepId step hnodup hstep
          have hs1nn : -1 ≤ s1.pipeline_index := by
            rw [he1, hids, stepIndexD, hio, Option.getD_some]
            omega
          rcases execute_autonomous_steps_err_status env w hnodup
              (w.pipelineSteps.length + 2) s1 f hloop hs1nn x with hx | hx | hx
          · rw [hx] at hpend
            by_cases hxid : x = step.id
            · rw [hxid, he2] at hpend
              simp at hpend
            · rw [he3 x hxid] at hpend
              dsimp only [] at hpend
              rw [pyGet_pySet_other _ _ _ _ (fun hc => hxs hc.symm)] at hpend
              exact hpend
          · rw [hx] at hpend
            simp at hpend
          · rw [hx] at hpend
            simp at hpend

/-- Witness for the amended C5 on the concrete resubmission of `A` to the
fully completed `[A, B, D]` session. -/
theorem C5_no_step_reset_witness :
    (stepOrder demoWfABD).Nodup ∧
    pyGet [("sid", c5Done)] "sid" = some c5Done ∧
    (∀ x s', pyGet (submit_step demoEnv demoWfABD [("sid", c5Done)]
        "sid" "A" [] (some demoFile)).2 "sid" = some s' →
      pyGet s'.step_status x = some "pending" →
      pyGet c5Done.step_status x = some "pending") := by
  exact ⟨by decide, rfl,
    C5_no_step_reset_to_pending demoEnv demoWfABD [("sid", c5Done)] "sid" "A" []
      (some demoFile) c5Done (by decide) rfl⟩

set_option maxHeartbeats 1000000 in
/-- Witness for C1: submitting the upload step `A` of the `[A, B, D]`
pipeline fast-forwards through the non-interactive `B` and stops at the
interactive `D`, with the session awaiting input and `D`'s UI step active. -/
theorem C1_autonomous_continuation_witness :
    (stepOrder demoWfABD).Nodup ∧
    pyGet (create_session demoEnv demoWfABD []).2 "sid" =
      some (create_session demoEnv demoWfABD []).1 ∧
    submit_step demoEnv demoWfABD (create_session demoEnv demoWfABD []).2
        "sid" "A" [] (some demoFile) =
      (SubmitOutcome.ok (outcomeSaved (submit_step demoEnv demoWfABD
          (create_session demoEnv demoWfABD []).2 "sid" "A" [] (some demoFile)).1),
        (submit_step demoEnv demoWfABD (create_session demoEnv demoWfABD []).2
          "sid" "A" [] (some demoFile)).2) ∧
    ((∀ k : Int, stepIndexOf demoWfABD "A" = some k →
      ∀ (j : Int) (sid' : String), k < j →
        j ≤ (outcomeSaved (submit_step demoEnv demoWfABD
          (create_session demoEnv demoWfABD []).2
          "sid" "A" [] (some demoFile)).1).pipeline_index →
        pyIndex (stepOrder demoWfABD) j = some sid' →
        pyGet (outcomeSaved (submit_step demoEnv demoWfABD
          (create_session demoEnv demoWfABD []).2
          "sid" "A" [] (some demoFile)).1).step_status sid' = some "completed") ∧
    ((outcomeSaved (submit_step demoEnv demoWfABD (create_session demoEnv demoWfABD []).2
        "sid" "A" [] (some demoFile)).1).pipeline_index + 1 ≥
        (demoWfABD.pipelineSteps.length : Int) ∨
      ∃ nstep nhd, pyIndex (stepOrder demoWfABD)
          ((outcomeSaved (submit_step demoEnv demoWfABD
            (create_session demoEnv demoWfABD []).2
            "sid" "A" [] (some demoFile)).1).pipeline_index + 1) = some nstep.id ∧
        stepById demoWfABD nstep.id = some nstep ∧
        pyGet (engineComponents demoEnv) nstep.component = some nhd ∧
        nhd.requires_user_input = true) ∧
    (next_user_step demoEnv demoWfABD
        (outcomeSaved (submit_step demoEnv demoWfABD
          (create_session demoEnv demoWfABD []).2
          "sid" "A" [] (some demoFile)).1).pipeline_index = none →
      (outcomeSaved (submit_step demoEnv demoWfABD (create_session demoEnv demoWfABD []).2
        "sid" "A" [] (some demoFile)).1).status = "completed") ∧
    (∀ nstep, next_user_step demoEnv demoWfABD
        (outcomeSaved (submit_step demoEnv demoWfABD
          (create_session demoEnv demoWfABD []).2
          "sid" "A" [] (some demoFile)).1).pipeline_index = some nstep →
      (outcomeSaved (submit_step demoEnv demoWfABD (create_session demoEnv demoWfABD []).2
        "sid" "A" [] (some demoFile)).1).status = "awaiting_input" ∧
      ∀ u, truthyStrParam nstep.params "ui_step" = some u →
        (outcomeSaved (submit_step demoEnv demoWfABD (create_session demoEnv demoWfABD []).2
          "sid" "A" [] (some demoFile)).1).active_ui_step = some u)) := by
  exact ⟨by decide, rfl, rfl,
    C1_autonomous_continuation demoEnv demoWfABD (create_session demoEnv demoWfABD []).2
      "sid" "A" [] (some demoFile) (create_session demoEnv demoWfABD []).1
      (outcomeSaved (submit_step demoEnv demoWfABD (create_session demoEnv demoWfABD []).2
        "sid" "A" [] (some demoFile)).1)
      (submit_step demoEnv demoWfABD (create_session demoEnv demoWfABD []).2
        "sid" "A" [] (some demoFile)).2
      (by decide) rfl rfl⟩

/-- C10: when no pipeline step after the cursor requires user input (e.g. a
completed session), the expected-step check is vacuous: `submit_step` accepts
any declared step id whose component is registered — it never rejects, it
ignores the stored session status entirely (the result is the same for every
status value), and a successful execution of the submitted step sets the
cursor to that step's index (which may be smaller than the current cursor). -/
theorem C10_no_expected_step_accepts_any_declared (env : Env) (w : WorkflowYaml)
    (sid stepId : String) (payload : PyDict Value) (file : Option UploadFile)
    (sess : WorkflowSession) (step : PipelineStep) (hd : ComponentHandler)
    (hnone : next_user_step env w sess.pipeline_index = none)
    (hstep : stepById w stepId = some step)
    (hcomp : pyGet (engineComponents env) step.component = some hd) :
    (∀ msg, ¬ (submit_step env w [(sid, sess)] sid stepId payload file).1 =
      SubmitOutcome.rejected msg) ∧
    (∀ st, submit_step env w [(sid, { sess with status := st })] sid stepId payload file =
      submit_step env w [(sid, sess)] sid stepId payload file) ∧
    (∀ s1, execute_step env w
        { sess with
          status := "processing",
          step_status := pySet sess.step_status stepId "running",
          last_error := none, updated_at := env.now } step hd payload file = Except.ok s1 →
      s1.pipeline_index = stepIndexD w step.id) := by
  have hg2 : pyGet [(sid, sess)] sid = some sess := by simp [pyGet]
  refine ⟨?_, ?_, ?_⟩
  · intro msg hcon
    unfold submit_step at hcon
    rw [hg2] at hcon
    dsimp only [] at hcon
    rw [hnone] at hcon
    dsimp only [] at hcon
    rw [if_neg Bool.false_ne_true] at hcon
    rw [hstep] at hcon
    dsimp only [] at hcon
    rw [hcomp] at hcon
    dsimp only [] at hcon
    rcases hres : execute_step env w
        { sess with
          status := "processing",
          step_status := pySet sess.step_status stepId "running",
          last_error := none, updated_at := env.now } step hd payload file with f | s1
    · rw [hres] at hcon
      dsimp only [] at hcon
      simp at hcon
    · rw [hres] at hcon
      dsimp only [] at hcon
      rcases hloop : execute_autonomous_steps env w (w.pipelineSteps.length + 2) s1
        with f | s2
      · rw [hloop] at hcon
        dsimp only [] at hcon
        simp at hcon
      · rw [hloop] at hcon
        dsimp only [] at hcon
        simp at hcon
  · intro st
    have hg1 : pyGet [(sid, { sess with status := st })] sid =
        some { sess with status := st } := by simp [pyGet]
    unfold submit_step
    rw [hg1, hg2]
    dsimp only []
    rw [hnone]
    dsimp only []
    rw [if_neg Bool.false_ne_true, hstep]
    dsimp only []
    rw [hcomp]
    dsimp only []
    rcases execute_step env w
        { sess with
          status := "processing",
          step_status := pySet sess.step_status stepId "running",
          last_error := none, updated_at := env.now } step hd payload file with f | s1
    · dsimp only []
      simp [pySet]
    · dsimp only []
      rcases execute_autonomous_steps env w (w.pipelineSteps.length + 2) s1
        with f | s2
      · dsimp only []
        simp [pySet]
      · dsimp only []
        simp [pySet]
  · intro s1 h
    exact (execute_step_ok env w _ step hd payload file s1 h).1

/-- Witness for C10: the completed `[A, B, D]` session (cursor 2) accepts a
resubmission of the non-interactive step `B`, whose index 1 is smaller than
the cursor, regardless of the stored status. -/
theorem C10_no_expected_step_witness :
    next_user_step demoEnv demoWfABD c5Done.pipeline_index = none ∧
    stepById demoWfABD "B" = some demoStepB ∧
    pyGet (engineComponents demoEnv) demoStepB.component =
      some { requires_user_input := false, execute := call_workflow_execute demoEnv } ∧
    stepIndexD demoWfABD demoStepB.id < c5Done.pipeline_index ∧
    (∀ msg, ¬ (submit_step demoEnv demoWfABD [("sid2", c5Done)] "sid2" "B" [] none).1 =
      SubmitOutcome.rejected msg) ∧
    (∀ st, submit_step demoEnv demoWfABD [("sid2", { c5Done with status := st })]
        "sid2" "B" [] none =
      submit_step demoEnv demoWfABD [("sid2", c5Done)] "sid2" "B" [] none) ∧
    (∀ s1, execute_step demoEnv demoWfABD
        { c5Done with
          status := "processing",
          step_status := pySet c5Done.step_status "B" "running",
          last_error := none, updated_at := demoEnv.now } demoStepB
        { requires_user_input := false, execute := call_workflow_execute demoEnv }
        [] none = Except.ok s1 →
      s1.pipeline_index = stepIndexD demoWfABD demoStepB.id) := by
  obtain ⟨h1, h2, h3⟩ := C10_no_expected_step_accepts_any_declared demoEnv demoWfABD
    "sid2" "B" [] none c5Done demoStepB
    { requires_user_input := false, execute := call_workflow_execute demoEnv }
    rfl rfl rfl
  exact ⟨rfl, rfl, rfl, by decide, h1, h2, h3⟩
